import Mathlib

/-!
# Verification of the pyotp2289 RFC-2289 one-time-password core

This development shallowly embeds the `otp2289` package: the server-side
state machine and store from `src/otp2289/server.py`, together with the
hash-chain generator and six-word codec it relies on.  Python byte strings
are modelled as `List Nat` (each element `< 256`), Python text strings as
`List Char`, and fallible operations as `Except`/`Option` values.  The
MD5 and SHA-1 primitives are implemented in full so that the RFC 2289
Appendix C reference vectors can be checked by evaluation.
-/

set_option maxRecDepth 40000
set_option exponentiation.threshold 10000

namespace Otp2289


/-- Truncation to 32 bits. -/
def m32 (x : Nat) : Nat := x % 4294967296

/-- Bitwise complement of a 32-bit value. -/
def not32 (x : Nat) : Nat := 4294967295 - m32 x

/-- Left rotation of a 32-bit value by `s` bits (`s ≤ 32`). -/
def rotl32 (x s : Nat) : Nat :=
  m32 (x * 2 ^ s) + m32 x / 2 ^ (32 - s)

/-- The `n` low-order bytes of `x`, least significant first. -/
def natToBytesLE : Nat → Nat → List Nat
  | 0, _ => []
  | n + 1, x => x % 256 :: natToBytesLE n (x / 256)

/-- The `n` low-order bytes of `x`, most significant first. -/
def natToBytesBE (n x : Nat) : List Nat :=
  (natToBytesLE n x).reverse

/-- Recombine little-endian bytes into a natural number. -/
def bytesToNatLE : List Nat → Nat
  | [] => 0
  | b :: bs => b + 256 * bytesToNatLE bs

/-- Recombine big-endian bytes into a natural number. -/
def bytesToNatBE (l : List Nat) : Nat :=
  bytesToNatLE l.reverse

/-- The 64 MD5 round constants, packed 32 bits apiece into one number
(constant `i` in bits `32*i` and up). -/
def md5KBlob : Nat := 29732487059488903905763322469631717769125958164929793412366151172425789674930196726340830178190906514422478323004784040542059979089805965034425678180485316684063688001477928907170542231125766311002278161933077603516964609369933634504338128008372068428496925083401620071902850460572765471884110920228817188125124493281864110345286067398630707046834778669356194165420306791751138704504376786068525417955924144244656571594389466757568292209990884764857563607959736288362486106461621891693005878713718965258586458050969130104168376363736547294730436302092358780808193855733010393122764009565348839319726584518636840068216

/-- The 64 MD5 per-round shift amounts, packed 8 bits apiece. -/
def md5SBlob : Nat := 1102936058611583724599231945851793179485159992642400647014456291965046039586126844883376118836760634781615794273102553240966458549343168537295689081752583

/-- One MD5 round.  `w` holds the sixteen 32-bit message words of the
current block packed 32 bits apiece; the state is `(a, b, c, d)`. -/
def md5Round (w : Nat) (st : Nat × Nat × Nat × Nat) (i : Nat) :
    Nat × Nat × Nat × Nat :=
  let (a, b, c, d) := st
  let fg : Nat × Nat :=
    if i < 16 then ((b.land c).lor ((not32 b).land d), i)
    else if i < 32 then ((d.land b).lor ((not32 d).land c), (5 * i + 1) % 16)
    else if i < 48 then ((b.xor c).xor d, (3 * i + 5) % 16)
    else (c.xor (b.lor (not32 d)), (7 * i) % 16)
  let k := md5KBlob / 2 ^ (32 * i) % 4294967296
  let s := md5SBlob / 2 ^ (8 * i) % 256
  let mw := w / 2 ^ (32 * fg.2) % 4294967296
  (d, m32 (b + rotl32 (m32 (a + fg.1 + k + mw)) s), b, c)

/-- Process one 64-byte MD5 block. -/
def md5Block (h : Nat × Nat × Nat × Nat) (block : List Nat) :
    Nat × Nat × Nat × Nat :=
  let w := bytesToNatLE block
  let (a, b, c, d) := (List.range 64).foldl (md5Round w) h
  (m32 (h.1 + a), m32 (h.2.1 + b), m32 (h.2.2.1 + c), m32 (h.2.2.2 + d))

/-- MD5 padding: one `0x80` byte, zeros, then the 64-bit little-endian
message bit length. -/
def md5Pad (msg : List Nat) : List Nat :=
  let l := msg.length
  msg ++ [0x80] ++ List.replicate ((119 - l % 64) % 64) 0
      ++ natToBytesLE 8 (8 * l)

/-- Split a byte list into consecutive 64-byte blocks. -/
def chunks64 (l : List Nat) : List (List Nat) :=
  (List.range (l.length / 64)).map fun i => (l.drop (64 * i)).take 64

/-- MD5 of a byte string, as its 16 digest bytes. -/
def md5 (msg : List Nat) : List Nat :=
  let (a, b, c, d) := (chunks64 (md5Pad msg)).foldl md5Block
    (0x67452301, 0xefcdab89, 0x98badcfe, 0x10325476)
  natToBytesLE 4 a ++ natToBytesLE 4 b ++ natToBytesLE 4 c ++ natToBytesLE 4 d

/-- Byte-wise XOR of two byte strings (`OTPGenerator.strxor`). -/
def strxor (a b : List Nat) : List Nat :=
  a.zipWith Nat.xor b

/-- SHA-1 round constant for round `i`. -/
def sha1K (i : Nat) : Nat :=
  if i < 20 then 0x5a827999
  else if i < 40 then 0x6ed9eba1
  else if i < 60 then 0x8f1bbcdc
  else 0xca62c1d6

/-- SHA-1 round mixing function for round `i`. -/
def sha1F (i b c d : Nat) : Nat :=
  if i < 20 then (b.land c).lor ((not32 b).land d)
  else if i < 40 then (b.xor c).xor d
  else if i < 60 then ((b.land c).lor (b.land d)).lor (c.land d)
  else (b.xor c).xor d

/-- Word `i` of a packed message-schedule blob. -/
def wd (w i : Nat) : Nat := w / 2 ^ (32 * i) % 4294967296

/-- Expand the sixteen block words to the full 80-word SHA-1 schedule. -/
def sha1Expand (w0 : Nat) : Nat :=
  (List.range 64).foldl
    (fun w j =>
      let i := j + 16
      let x := rotl32
        ((wd w (i - 3)).xor ((wd w (i - 8)).xor
          ((wd w (i - 14)).xor (wd w (i - 16))))) 1
      w + x * 2 ^ (32 * i))
    w0

/-- One SHA-1 round on state `(a, b, c, d, e)`. -/
def sha1Round (w : Nat) (st : Nat × Nat × Nat × Nat × Nat) (i : Nat) :
    Nat × Nat × Nat × Nat × Nat :=
  let (a, b, c, d, e) := st
  let t := m32 (rotl32 a 5 + sha1F i b c d + e + sha1K i + wd w i)
  (t, a, rotl32 b 30, c, d)

/-- Process one 64-byte SHA-1 block. -/
def sha1Block (h : Nat × Nat × Nat × Nat × Nat) (block : List Nat) :
    Nat × Nat × Nat × Nat × Nat :=
  let w0 := (List.range 16).foldl
    (fun w j => w + bytesToNatBE ((block.drop (4 * j)).take 4) * 2 ^ (32 * j)) 0
  let w := sha1Expand w0
  let (a, b, c, d, e) := (List.range 80).foldl (sha1Round w) h
  (m32 (h.1 + a), m32 (h.2.1 + b), m32 (h.2.2.1 + c),
    m32 (h.2.2.2.1 + d), m32 (h.2.2.2.2 + e))

/-- SHA-1 padding: one `0x80` byte, zeros, then the 64-bit big-endian
message bit length. -/
def sha1Pad (msg : List Nat) : List Nat :=
  let l := msg.length
  msg ++ [0x80] ++ List.replicate ((119 - l % 64) % 64) 0
      ++ natToBytesBE 8 (8 * l)

/-- SHA-1 of a byte string, as its 20 digest bytes. -/
def sha1 (msg : List Nat) : List Nat :=
  let (a, b, c, d, e) := (chunks64 (sha1Pad msg)).foldl sha1Block
    (0x67452301, 0xefcdab89, 0x98badcfe, 0x10325476, 0xc3d2e1f0)
  natToBytesBE 4 a ++ natToBytesBE 4 b ++ natToBytesBE 4 c
    ++ natToBytesBE 4 d ++ natToBytesBE 4 e

/-- Modelled from the spec: `OTPGenerator.sha1_digest_folding` is absent
from the sources (`generator.py` is missing); per RFC 2289 §3.3 the five
big-endian 32-bit digest words are folded as `h0⊕h2⊕h4` and `h1⊕h3` and
the two results are emitted in little-endian byte order.  Validated below
against the RFC 2289 Appendix C vectors. -/
def sha1DigestFolding (d : List Nat) : List Nat :=
  let h := fun i => bytesToNatBE ((d.drop (4 * i)).take 4)
  natToBytesLE 4 ((h 0).xor ((h 2).xor (h 4)))
    ++ natToBytesLE 4 ((h 1).xor (h 3))

/-- Modelled from the spec: part 1 of 8 of the fixed 2048-entry RFC 2289
dictionary (entries 0 to 255); `generator.py` is missing from the
sources.  Validated below against all hex/word reference vectors of the
repository tests. -/
def otpWords1 : List String :=
  [   "A", "ABE", "ACE", "ACT", "AD", "ADA", "ADD", "AGO",
   "AID", "AIM", "AIR", "ALL", "ALP", "AM", "AMY", "AN",
   "ANA", "AND", "ANN", "ANT", "ANY", "APE", "APS", "APT",
   "ARC", "ARE", "ARK", "ARM", "ART", "AS", "ASH", "ASK",
   "AT", "ATE", "AUG", "AUK", "AVE", "AWE", "AWK", "AWL",
   "AWN", "AX", "AYE", "BAD", "BAG", "BAH", "BAM", "BAN",
   "BAR", "BAT", "BAY", "BE", "BED", "BEE", "BEG", "BEN",
   "BET", "BEY", "BIB", "BID", "BIG", "BIN", "BIT", "BOB",
   "BOG", "BON", "BOO", "BOP", "BOW", "BOY", "BUB", "BUD",
   "BUG", "BUM", "BUN", "BUS", "BUT", "BUY", "BY", "BYE",
   "CAB", "CAL", "CAM", "CAN", "CAP", "CAR", "CAT", "CAW",
   "COD", "COG", "COL", "CON", "COO", "COP", "COT", "COW",
   "COY", "CRY", "CUB", "CUE", "CUP", "CUR", "CUT", "DAB",
   "DAD", "DAM", "DAN", "DAR", "DAY", "DEE", "DEL", "DEN",
   "DES", "DEW", "DID", "DIE", "DIG", "DIN", "DIP", "DO",
   "DOE", "DOG", "DON", "DOT", "DOW", "DRY", "DUB", "DUD",
   "DUE", "DUG", "DUN", "EAR", "EAT", "ED", "EEL", "EGG",
   "EGO", "ELI", "ELK", "ELM", "ELY", "EM", "END", "EST",
   "ETC", "EVA", "EVE", "EWE", "EYE", "FAD", "FAN", "FAR",
   "FAT", "FAY", "FED", "FEE", "FEW", "FIB", "FIG", "FIN",
   "FIR", "FIT", "FLO", "FLY", "FOE", "FOG", "FOR", "FRY",
   "FUM", "FUN", "FUR", "GAB", "GAD", "GAG", "GAL", "GAM",
   "GAP", "GAS", "GAY", "GEE", "GEL", "GEM", "GET", "GIG",
   "GIL", "GIN", "GO", "GOT", "GUM", "GUN", "GUS", "GUT",
   "GUY", "GYM", "GYP", "HA", "HAD", "HAL", "HAM", "HAN",
   "HAP", "HAS", "HAT", "HAW", "HAY", "HE", "HEM", "HEN",
   "HER", "HEW", "HEY", "HI", "HID", "HIM", "HIP", "HIS",
   "HIT", "HO", "HOB", "HOC", "HOE", "HOG", "HOP", "HOT",
   "HOW", "HUB", "HUE", "HUG", "HUH", "HUM", "HUT", "I",
   "ICY", "IDA", "IF", "IKE", "ILL", "INK", "INN", "IO",
   "ION", "IQ", "IRA", "IRE", "IRK", "IS", "IT", "ITS",
   "IVY", "JAB", "JAG", "JAM", "JAN", "JAR", "JAW", "JAY"]

/-- Modelled from the spec: part 2 of 8 of the fixed 2048-entry RFC 2289
dictionary (entries 256 to 511); `generator.py` is missing from the
sources.  Validated below against all hex/word reference vectors of the
repository tests. -/
def otpWords2 : List String :=
  [   "JET", "JIG", "JIM", "JO", "JOB", "JOE", "JOG", "JOT",
   "JOY", "JUG", "JUT", "KAY", "KEG", "KEN", "KEY", "KID",
   "KIM", "KIN", "KIT", "LA", "LAB", "LAC", "LAD", "LAG",
   "LAM", "LAP", "LAW", "LAY", "LEA", "LED", "LEE", "LEG",
   "LEN", "LEO", "LET", "LEW", "LID", "LIE", "LIN", "LIP",
   "LIT", "LO", "LOB", "LOG", "LOP", "LOS", "LOT", "LOU",
   "LOW", "LOY", "LUG", "LYE", "MA", "MAC", "MAD", "MAE",
   "MAN", "MAO", "MAP", "MAT", "MAW", "MAY", "ME", "MEG",
   "MEL", "MEN", "MET", "MEW", "MID", "MIN", "MIT", "MOB",
   "MOD", "MOE", "MOO", "MOP", "MOS", "MOT", "MOW", "MUD",
   "MUG", "MUM", "MY", "NAB", "NAG", "NAN", "NAP", "NAT",
   "NAY", "NE", "NED", "NEE", "NET", "NEW", "NIB", "NIL",
   "NIP", "NIT", "NO", "NOB", "NOD", "NON", "NOR", "NOT",
   "NOV", "NOW", "NU", "NUN", "NUT", "O", "OAF", "OAK",
   "OAR", "OAT", "ODD", "ODE", "OF", "OFF", "OFT", "OH",
   "OIL", "OK", "OLD", "ON", "ONE", "OR", "ORB", "ORE",
   "ORR", "OS", "OTT", "OUR", "OUT", "OVA", "OW", "OWE",
   "OWL", "OWN", "OX", "PA", "PAD", "PAL", "PAM", "PAN",
   "PAP", "PAR", "PAT", "PAW", "PAY", "PEA", "PEG", "PEN",
   "PEP", "PER", "PET", "PEW", "PHI", "PI", "PIE", "PIN",
   "PIT", "PLY", "PO", "POD", "POE", "POP", "POT", "POW",
   "PRO", "PRY", "PUB", "PUG", "PUN", "PUP", "PUT", "QUO",
   "RAG", "RAM", "RAN", "RAP", "RAT", "RAW", "RAY", "REB",
   "RED", "REP", "RET", "RIB", "RID", "RIG", "RIM", "RIO",
   "RIP", "ROB", "ROD", "ROE", "RON", "ROT", "ROW", "ROY",
   "RUB", "RUE", "RUG", "RUM", "RUN", "RYE", "SAC", "SAD",
   "SAG", "SAL", "SAM", "SAN", "SAP", "SAT", "SAW", "SAY",
   "SEA", "SEC", "SEE", "SEN", "SET", "SEW", "SHE", "SHY",
   "SIN", "SIP", "SIR", "SIS", "SIT", "SKI", "SKY", "SLY",
   "SO", "SOB", "SOD", "SON", "SOP", "SOW", "SOY", "SPA",
   "SPY", "SUB", "SUD", "SUE", "SUM", "SUN", "SUP", "TAB",
   "TAD", "TAG", "TAN", "TAP", "TAR", "TEA", "TED", "TEE"]

/-- Modelled from the spec: part 3 of 8 of the fixed 2048-entry RFC 2289
dictionary (entries 512 to 767); `generator.py` is missing from the
sources.  Validated below against all hex/word reference vectors of the
repository tests. -/
def otpWords3 : List String :=
  [   "TEN", "THE", "THY", "TIC", "TIE", "TIM", "TIN", "TIP",
   "TO", "TOE", "TOG", "TOM", "TON", "TOO", "TOP", "TOW",
   "TOY", "TRY", "TUB", "TUG", "TUM", "TUN", "TWO", "UN",
   "UP", "US", "USE", "VAN", "VAT", "VET", "VIE", "WAD",
   "WAG", "WAR", "WAS", "WAY", "WE", "WEB", "WED", "WEE",
   "WET", "WHO", "WHY", "WIN", "WIT", "WOK", "WON", "WOO",
   "WOW", "WRY", "WU", "YAM", "YAP", "YAW", "YE", "YEA",
   "YES", "YET", "YOU", "ABED", "ABEL", "ABET", "ABLE", "ABUT",
   "ACHE", "ACID", "ACME", "ACRE", "ACTA", "ACTS", "ADAM", "ADDS",
   "ADEN", "AFAR", "AFRO", "AGEE", "AHEM", "AHOY", "AIDA", "AIDE",
   "AIDS", "AIRY", "AJAR", "AKIN", "ALAN", "ALEC", "ALGA", "ALIA",
   "ALLY", "ALMA", "ALOE", "ALSO", "ALTO", "ALUM", "ALVA", "AMEN",
   "AMES", "AMID", "AMMO", "AMOK", "AMOS", "AMRA", "ANDY", "ANEW",
   "ANNA", "ANNE", "ANTE", "ANTI", "AQUA", "ARAB", "ARCH", "AREA",
   "ARGO", "ARID", "ARMY", "ARTS", "ARTY", "ASIA", "ASKS", "ATOM",
   "AUNT", "AURA", "AUTO", "AVER", "AVID", "AVIS", "AVON", "AVOW",
   "AWAY", "AWRY", "BABE", "BABY", "BACH", "BACK", "BADE", "BAIL",
   "BAIT", "BAKE", "BALD", "BALE", "BALI", "BALK", "BALL", "BALM",
   "BAND", "BANE", "BANG", "BANK", "BARB", "BARD", "BARE", "BARK",
   "BARN", "BARR", "BASE", "BASH", "BASK", "BASS", "BATE", "BATH",
   "BAWD", "BAWL", "BEAD", "BEAK", "BEAM", "BEAN", "BEAR", "BEAT",
   "BEAU", "BECK", "BEEF", "BEEN", "BEER", "BEET", "BELA", "BELL",
   "BELT", "BEND", "BENT", "BERG", "BERN", "BERT", "BESS", "BEST",
   "BETA", "BETH", "BHOY", "BIAS", "BIDE", "BIEN", "BILE", "BILK",
   "BILL", "BIND", "BING", "BIRD", "BITE", "BITS", "BLAB", "BLAT",
   "BLED", "BLEW", "BLOB", "BLOC", "BLOT", "BLOW", "BLUE", "BLUM",
   "BLUR", "BOAR", "BOAT", "BOCA", "BOCK", "BODE", "BODY", "BOGY",
   "BOHR", "BOIL", "BOLD", "BOLO", "BOLT", "BOMB", "BONA", "BOND",
   "BONE", "BONG", "BONN", "BONY", "BOOK", "BOOM", "BOON", "BOOT",
   "BORE", "BORG", "BORN", "BOSE", "BOSS", "BOTH", "BOUT", "BOWL",
   "BOYD", "BRAD", "BRAE", "BRAG", "BRAN", "BRAY", "BRED", "BREW",
   "BRIG", "BRIM", "BROW", "BUCK", "BUDD", "BUFF", "BULB", "BULK"]

/-- Modelled from the spec: part 4 of 8 of the fixed 2048-entry RFC 2289
dictionary (entries 768 to 1023); `generator.py` is missing from the
sources.  Validated below against all hex/word reference vectors of the
repository tests. -/
def otpWords4 : List String :=
  [   "BULL", "BUNK", "BUNT", "BUOY", "BURG", "BURL", "BURN", "BURR",
   "BURT", "BURY", "BUSH", "BUSS", "BUST", "BUSY", "BYTE", "CADY",
   "CAFE", "CAGE", "CAIN", "CAKE", "CALF", "CALL", "CALM", "CAME",
   "CANE", "CANT", "CARD", "CARE", "CARL", "CARR", "CART", "CASE",
   "CASH", "CASK", "CAST", "CAVE", "CEIL", "CELL", "CENT", "CERN",
   "CHAD", "CHAR", "CHAT", "CHAW", "CHEF", "CHEN", "CHEW", "CHIC",
   "CHIN", "CHOU", "CHOW", "CHUB", "CHUG", "CHUM", "CITE", "CITY",
   "CLAD", "CLAM", "CLAN", "CLAW", "CLAY", "CLOD", "CLOG", "CLOT",
   "CLUB", "CLUE", "COAL", "COAT", "COCA", "COCK", "COCO", "CODA",
   "CODE", "CODY", "COED", "COIL", "COIN", "COKE", "COLA", "COLD",
   "COLT", "COMA", "COMB", "COME", "COOK", "COOL", "COON", "COOT",
   "CORD", "CORE", "CORK", "CORN", "COST", "COVE", "COWL", "CRAB",
   "CRAG", "CRAM", "CRAY", "CREW", "CRIB", "CROW", "CRUD", "CUBA",
   "CUBE", "CUFF", "CULL", "CULT", "CUNY", "CURB", "CURD", "CURE",
   "CURL", "CURT", "CUTS", "DADE", "DALE", "DAME", "DANA", "DANE",
   "DANG", "DANK", "DARE", "DARK", "DARN", "DART", "DASH", "DATA",
   "DATE", "DAVE", "DAVY", "DAWN", "DAYS", "DEAD", "DEAF", "DEAL",
   "DEAN", "DEAR", "DEBT", "DECK", "DEED", "DEEM", "DEER", "DEFT",
   "DEFY", "DELL", "DENT", "DENY", "DESK", "DIAL", "DICE", "DIED",
   "DIET", "DIME", "DINE", "DING", "DINT", "DIRE", "DIRT", "DISC",
   "DISH", "DISK", "DIVE", "DOCK", "DOES", "DOLE", "DOLL", "DOLT",
   "DOME", "DONE", "DOOM", "DOOR", "DORA", "DOSE", "DOTE", "DOUG",
   "DOUR", "DOVE", "DOWN", "DRAB", "DRAG", "DRAM", "DRAW", "DREW",
   "DRUB", "DRUG", "DRUM", "DUAL", "DUCK", "DUCT", "DUEL", "DUET",
   "DUKE", "DULL", "DUMB", "DUNE", "DUNK", "DUSK", "DUST", "DUTY",
   "EACH", "EARL", "EARN", "EASE", "EAST", "EASY", "EBEN", "ECHO",
   "EDDY", "EDEN", "EDGE", "EDGY", "EDIT", "EDNA", "EGAN", "ELAN",
   "ELBA", "ELLA", "ELSE", "EMIL", "EMIT", "EMMA", "ENDS", "ERIC",
   "EROS", "EVEN", "EVER", "EVIL", "EYED", "FACE", "FACT", "FADE",
   "FAIL", "FAIN", "FAIR", "FAKE", "FALL", "FAME", "FANG", "FARM",
   "FAST", "FATE", "FAWN", "FEAR", "FEAT", "FEED", "FEEL", "FEET",
   "FELL", "FELT", "FEND", "FERN", "FEST", "FEUD", "FIEF", "FIGS"]

/-- Modelled from the spec: part 5 of 8 of the fixed 2048-entry RFC 2289
dictionary (entries 1024 to 1279); `generator.py` is missing from the
sources.  Validated below against all hex/word reference vectors of the
repository tests. -/
def otpWords5 : List String :=
  [   "FILE", "FILL", "FILM", "FIND", "FINE", "FINK", "FIRE", "FIRM",
   "FISH", "FISK", "FIST", "FITS", "FIVE", "FLAG", "FLAK", "FLAM",
   "FLAT", "FLAW", "FLEA", "FLED", "FLEW", "FLIT", "FLOC", "FLOG",
   "FLOW", "FLUB", "FLUE", "FOAL", "FOAM", "FOGY", "FOIL", "FOLD",
   "FOLK", "FOND", "FONT", "FOOD", "FOOL", "FOOT", "FORD", "FORE",
   "FORK", "FORM", "FORT", "FOSS", "FOUL", "FOUR", "FOWL", "FRAU",
   "FRAY", "FRED", "FREE", "FRET", "FREY", "FROG", "FROM", "FUEL",
   "FULL", "FUME", "FUND", "FUNK", "FURY", "FUSE", "FUSS", "GAFF",
   "GAGE", "GAIL", "GAIN", "GAIT", "GALA", "GALE", "GALL", "GALT",
   "GAME", "GANG", "GARB", "GARY", "GASH", "GATE", "GAUL", "GAUR",
   "GAVE", "GAWK", "GEAR", "GELD", "GENE", "GENT", "GERM", "GETS",
   "GIBE", "GIFT", "GILD", "GILL", "GILT", "GINA", "GIRD", "GIRL",
   "GIST", "GIVE", "GLAD", "GLEE", "GLEN", "GLIB", "GLOB", "GLOM",
   "GLOW", "GLUE", "GLUM", "GLUT", "GOAD", "GOAL", "GOAT", "GOER",
   "GOES", "GOLD", "GOLF", "GONE", "GONG", "GOOD", "GOOF", "GORE",
   "GORY", "GOSH", "GOUT", "GOWN", "GRAB", "GRAD", "GRAY", "GREG",
   "GREW", "GREY", "GRID", "GRIM", "GRIN", "GRIT", "GROW", "GRUB",
   "GULF", "GULL", "GUNK", "GURU", "GUSH", "GUST", "GWEN", "GWYN",
   "HAAG", "HAAS", "HACK", "HAIL", "HAIR", "HALE", "HALF", "HALL",
   "HALO", "HALT", "HAND", "HANG", "HANK", "HANS", "HARD", "HARK",
   "HARM", "HART", "HASH", "HAST", "HATE", "HATH", "HAUL", "HAVE",
   "HAWK", "HAYS", "HEAD", "HEAL", "HEAR", "HEAT", "HEBE", "HECK",
   "HEED", "HEEL", "HEFT", "HELD", "HELL", "HELM", "HERB", "HERD",
   "HERE", "HERO", "HERS", "HESS", "HEWN", "HICK", "HIDE", "HIGH",
   "HIKE", "HILL", "HILT", "HIND", "HINT", "HIRE", "HISS", "HIVE",
   "HOBO", "HOCK", "HOFF", "HOLD", "HOLE", "HOLM", "HOLT", "HOME",
   "HONE", "HONK", "HOOD", "HOOF", "HOOK", "HOOT", "HORN", "HOSE",
   "HOST", "HOUR", "HOVE", "HOWE", "HOWL", "HOYT", "HUCK", "HUED",
   "HUFF", "HUGE", "HUGH", "HUGO", "HULK", "HULL", "HUNK", "HUNT",
   "HURD", "HURL", "HURT", "HUSH", "HYDE", "HYMN", "IBIS", "ICON",
   "IDEA", "IDLE", "IFFY", "INCA", "INCH", "INTO", "IONS", "IOTA",
   "IOWA", "IRIS", "IRMA", "IRON", "ISLE", "ITCH", "ITEM", "IVAN"]

/-- Modelled from the spec: part 6 of 8 of the fixed 2048-entry RFC 2289
dictionary (entries 1280 to 1535); `generator.py` is missing from the
sources.  Validated below against all hex/word reference vectors of the
repository tests. -/
def otpWords6 : List String :=
  [   "JACK", "JADE", "JAIL", "JAKE", "JANE", "JAVA", "JEAN", "JEFF",
   "JERK", "JESS", "JEST", "JIBE", "JILL", "JILT", "JIVE", "JOAN",
   "JOBS", "JOCK", "JOEL", "JOEY", "JOHN", "JOIN", "JOKE", "JOLT",
   "JOVE", "JUDD", "JUDE", "JUDO", "JUDY", "JUJU", "JUKE", "JULY",
   "JUNE", "JUNK", "JUNO", "JURY", "JUST", "JUTE", "KAHN", "KALE",
   "KANE", "KANT", "KARL", "KATE", "KEEL", "KEEN", "KENO", "KENT",
   "KERN", "KERR", "KEYS", "KICK", "KILL", "KIND", "KING", "KIRK",
   "KISS", "KITE", "KLAN", "KNEE", "KNEW", "KNIT", "KNOB", "KNOT",
   "KNOW", "KOCH", "KONG", "KUDO", "KURD", "KURT", "KYLE", "LACE",
   "LACK", "LACY", "LADY", "LAID", "LAIN", "LAIR", "LAKE", "LAMB",
   "LAME", "LAND", "LANE", "LANG", "LARD", "LARK", "LASS", "LAST",
   "LATE", "LAVA", "LAWN", "LAWS", "LAYS", "LEAD", "LEAF", "LEAK",
   "LEAN", "LEAP", "LEAR", "LEEK", "LEER", "LEFT", "LEND", "LENS",
   "LENT", "LEON", "LESK", "LESS", "LEST", "LETS", "LIAR", "LICE",
   "LICK", "LIED", "LIEN", "LIES", "LIEU", "LIFE", "LIFT", "LIKE",
   "LILA", "LILT", "LILY", "LIMA", "LIMB", "LIME", "LIND", "LINE",
   "LINK", "LINT", "LION", "LISA", "LIST", "LIVE", "LOAD", "LOAF",
   "LOAM", "LOAN", "LOCK", "LOFT", "LOGE", "LOIS", "LOLA", "LONE",
   "LONG", "LOOK", "LOON", "LOOT", "LORD", "LORE", "LOSE", "LOSS",
   "LOST", "LOUD", "LOVE", "LOWE", "LUCK", "LUCY", "LUGE", "LUKE",
   "LULU", "LUND", "LUNG", "LURA", "LURE", "LURK", "LUSH", "LUST",
   "LYLE", "LYNN", "LYON", "LYRA", "MACE", "MADE", "MAGI", "MAID",
   "MAIL", "MAIN", "MAKE", "MALE", "MALI", "MALL", "MALT", "MANA",
   "MANN", "MANY", "MARC", "MARE", "MARK", "MARS", "MART", "MARY",
   "MASH", "MASK", "MASS", "MAST", "MATE", "MATH", "MAUL", "MAYO",
   "MEAD", "MEAL", "MEAN", "MEAT", "MEEK", "MEET", "MELD", "MELT",
   "MEMO", "MEND", "MENU", "MERT", "MESH", "MESS", "MICE", "MIKE",
   "MILD", "MILE", "MILK", "MILL", "MILT", "MIMI", "MIND", "MINE",
   "MINI", "MINK", "MINT", "MIRE", "MISS", "MIST", "MITE", "MITT",
   "MOAN", "MOAT", "MOCK", "MODE", "MOLD", "MOLE", "MOLL", "MOLT",
   "MONA", "MONK", "MONT", "MOOD", "MOON", "MOOR", "MOOT", "MORE",
   "MORN", "MORT", "MOSS", "MOST", "MOTH", "MOVE", "MUCH", "MUCK"]

/-- Modelled from the spec: part 7 of 8 of the fixed 2048-entry RFC 2289
dictionary (entries 1536 to 1791); `generator.py` is missing from the
sources.  Validated below against all hex/word reference vectors of the
repository tests. -/
def otpWords7 : List String :=
  [   "MUDD", "MUFF", "MULE", "MULL", "MURK", "MUSH", "MUST", "MUTE",
   "MUTT", "MYRA", "MYTH", "NAGY", "NAIL", "NAIR", "NAME", "NARY",
   "NASH", "NAVE", "NAVY", "NEAL", "NEAR", "NEAT", "NECK", "NEED",
   "NEIL", "NELL", "NEON", "NERO", "NESS", "NEST", "NEWS", "NEWT",
   "NIBS", "NICE", "NICK", "NILE", "NINA", "NINE", "NOAH", "NODE",
   "NOEL", "NOLL", "NONE", "NOOK", "NOON", "NORM", "NOSE", "NOTE",
   "NOUN", "NOVA", "NUDE", "NULL", "NUMB", "OATH", "OBEY", "OBOE",
   "ODIN", "OHIO", "OILY", "OINT", "OKAY", "OLAF", "OLDY", "OLGA",
   "OLIN", "OMAN", "OMEN", "OMIT", "ONCE", "ONES", "ONLY", "ONTO",
   "ONUS", "ORAL", "ORGY", "OSLO", "OTIS", "OTTO", "OUCH", "OUST",
   "OUTS", "OVAL", "OVEN", "OVER", "OWLY", "OWNS", "QUAD", "QUIT",
   "QUOD", "RACE", "RACK", "RACY", "RAFT", "RAGE", "RAID", "RAIL",
   "RAIN", "RAKE", "RANK", "RANT", "RARE", "RASH", "RATE", "RAVE",
   "RAYS", "READ", "REAL", "REAM", "REAR", "RECK", "REED", "REEF",
   "REEK", "REEL", "REID", "REIN", "RENA", "REND", "RENT", "REST",
   "RICE", "RICH", "RICK", "RIDE", "RIFT", "RILL", "RIME", "RING",
   "RINK", "RISE", "RISK", "RITE", "ROAD", "ROAM", "ROAR", "ROBE",
   "ROCK", "RODE", "ROIL", "ROLL", "ROME", "ROOD", "ROOF", "ROOK",
   "ROOM", "ROOT", "ROSA", "ROSE", "ROSS", "ROSY", "ROTH", "ROUT",
   "ROVE", "ROWE", "ROWS", "RUBE", "RUBY", "RUDE", "RUDY", "RUIN",
   "RULE", "RUNG", "RUNS", "RUNT", "RUSE", "RUSH", "RUSK", "RUSS",
   "RUST", "RUTH", "SACK", "SAFE", "SAGE", "SAID", "SAIL", "SALE",
   "SALK", "SALT", "SAME", "SAND", "SANE", "SANG", "SANK", "SARA",
   "SAUL", "SAVE", "SAYS", "SCAN", "SCAR", "SCAT", "SCOT", "SEAL",
   "SEAM", "SEAR", "SEAT", "SEED", "SEEK", "SEEM", "SEEN", "SEES",
   "SELF", "SELL", "SEND", "SENT", "SETS", "SEWN", "SHAG", "SHAM",
   "SHAW", "SHAY", "SHED", "SHIM", "SHIN", "SHOD", "SHOE", "SHOT",
   "SHOW", "SHUN", "SHUT", "SICK", "SIDE", "SIFT", "SIGH", "SIGN",
   "SILK", "SILL", "SILO", "SILT", "SINE", "SING", "SINK", "SIRE",
   "SITE", "SITS", "SITU", "SKAT", "SKEW", "SKID", "SKIM", "SKIN",
   "SKIT", "SLAB", "SLAM", "SLAT", "SLAY", "SLED", "SLEW", "SLID",
   "SLIM", "SLIT", "SLOB", "SLOG", "SLOT", "SLOW", "SLUG", "SLUM"]

/-- Modelled from the spec: part 8 of 8 of the fixed 2048-entry RFC 2289
dictionary (entries 1792 to 2047); `generator.py` is missing from the
sources.  Validated below against all hex/word reference vectors of the
repository tests. -/
def otpWords8 : List String :=
  [   "SLUR", "SMOG", "SMUG", "SNAG", "SNOB", "SNOW", "SNUB", "SNUG",
   "SOAK", "SOAR", "SOCK", "SODA", "SOFA", "SOFT", "SOIL", "SOLD",
   "SOME", "SONG", "SOON", "SOOT", "SORE", "SORT", "SOUL", "SOUR",
   "SOWN", "STAB", "STAG", "STAN", "STAR", "STAY", "STEM", "STEW",
   "STIR", "STOW", "STUB", "STUN", "SUCH", "SUDS", "SUIT", "SULK",
   "SUMS", "SUNG", "SUNK", "SURE", "SURF", "SWAB", "SWAG", "SWAM",
   "SWAN", "SWAT", "SWAY", "SWIM", "SWUM", "TACK", "TACT", "TAIL",
   "TAKE", "TALE", "TALK", "TALL", "TANK", "TASK", "TATE", "TAUT",
   "TEAL", "TEAM", "TEAR", "TECH", "TEEM", "TEEN", "TEET", "TELL",
   "TEND", "TENT", "TERM", "TERN", "TESS", "TEST", "THAN", "THAT",
   "THEE", "THEM", "THEN", "THEY", "THIN", "THIS", "THUD", "THUG",
   "TICK", "TIDE", "TIDY", "TIED", "TIER", "TILE", "TILL", "TILT",
   "TIME", "TINA", "TINE", "TINT", "TINY", "TIRE", "TOAD", "TOGO",
   "TOIL", "TOLD", "TOLL", "TONE", "TONG", "TONY", "TOOK", "TOOL",
   "TOOT", "TORE", "TORN", "TOTE", "TOUR", "TOUT", "TOWN", "TRAG",
   "TRAM", "TRAY", "TREE", "TREK", "TRIG", "TRIM", "TRIO", "TROD",
   "TROT", "TROY", "TRUE", "TUBA", "TUBE", "TUCK", "TUFT", "TUNA",
   "TUNE", "TUNG", "TURF", "TURN", "TUSK", "TWIG", "TWIN", "TWIT",
   "ULAN", "UNIT", "URGE", "USED", "USER", "USES", "UTAH", "VAIL",
   "VAIN", "VALE", "VARY", "VASE", "VAST", "VEAL", "VEDA", "VEIL",
   "VEIN", "VEND", "VENT", "VERB", "VERY", "VETO", "VICE", "VIEW",
   "VINE", "VISE", "VOID", "VOLT", "VOTE", "WACK", "WADE", "WAGE",
   "WAIL", "WAIT", "WAKE", "WALE", "WALK", "WALL", "WALT", "WAND",
   "WANE", "WANG", "WANT", "WARD", "WARM", "WARN", "WART", "WASH",
   "WAST", "WATS", "WATT", "WAVE", "WAVY", "WAYS", "WEAK", "WEAL",
   "WEAN", "WEAR", "WEED", "WEEK", "WEIR", "WELD", "WELL", "WELT",
   "WENT", "WERE", "WERT", "WEST", "WHAM", "WHAT", "WHEE", "WHEN",
   "WHET", "WHOA", "WHOM", "WICK", "WIFE", "WILD", "WILL", "WIND",
   "WINE", "WING", "WINK", "WINO", "WIRE", "WISE", "WISH", "WITH",
   "WOLF", "WONT", "WOOD", "WOOL", "WORD", "WORE", "WORK", "WORM",
   "WORN", "WOVE", "WRIT", "WYNN", "YALE", "YANG", "YANK", "YARD",
   "YARN", "YAWL", "YAWN", "YEAH", "YEAR", "YELL", "YOGA", "YOKE"]

/-- Modelled from the spec: the fixed, ordered, 2048-entry short-word
dictionary of RFC 2289 §4 used by the word codec. -/
def otpWords : List String :=
  otpWords1 ++ otpWords2 ++ otpWords3 ++ otpWords4 ++ otpWords5 ++ otpWords6
    ++ otpWords7 ++ otpWords8

/-- The dictionary with each word as a character list. -/
def otpWordsL : List (List Char) :=
  otpWords.map String.toList

/-- Split a character list into maximal whitespace-free words, dropping
all whitespace (the behaviour of Python `str.split()`). -/
def splitWs : List Char → List (List Char)
  | [] => []
  | c :: rest =>
    if c.isWhitespace then splitWs rest
    else
      match rest, splitWs rest with
      | [], _ => [[c]]
      | d :: _, r =>
        if d.isWhitespace then [c] :: r
        else
          match r with
          | [] => [[c]]
          | w :: ws => (c :: w) :: ws

/-- Join words with single spaces. -/
def joinSpace : List (List Char) → List Char
  | [] => []
  | [w] => w
  | w :: ws => w ++ ' ' :: joinSpace ws

/-- Modelled from the spec: the RFC 2289 §4 two-bit checksum of a 64-bit
value, the sum of its 32 two-bit groups reduced mod 4 (`generator.py` is
missing from the sources). -/
def checksum64 (n : Nat) : Nat :=
  ((List.range 32).foldl (fun a i => a + n / 4 ^ i % 4) 0) % 4

/-- The six 11-bit groups of a 66-bit value, most significant first. -/
def tokenIndices (m : Nat) : List Nat :=
  (List.range 6).map fun k => m / 2048 ^ (5 - k) % 2048

/-- Modelled from the spec: `OTPGenerator.bytes_to_tokens` (`generator.py`
is missing from the sources).  The 64 data bits are extended with the
two checksum bits, split into six 11-bit groups (most significant first),
each group indexes the dictionary, and the six words are joined with
spaces. -/
def bytesToTokens (bs : List Nat) : List Char :=
  let n := bytesToNatBE bs
  joinSpace ((tokenIndices (n * 4 + checksum64 n)).map
    fun g => otpWordsL.getD g [])

/-- Position of `w` in the word list `ds`, offset by `n`. -/
def idxFrom (w : List Char) : List (List Char) → Nat → Option Nat
  | [], _ => none
  | d :: ds, n => if d = w then some n else idxFrom w ds (n + 1)

/-- Dictionary index of a (case-normalised) word, if present. -/
def wordIndex (w : List Char) : Option Nat :=
  idxFrom w otpWordsL 0

/-- Dictionary indices of a word list; `none` if any word is unknown. -/
def wordIndices : List (List Char) → Option (List Nat)
  | [] => some []
  | w :: ws =>
    match wordIndex w, wordIndices ws with
    | some g, some gs => some (g :: gs)
    | _, _ => none

/-- Error cases of the modelled generator (`OTPGeneratorException`). -/
inductive GenError where
  | notSixTokens
  | unknownToken
  | checksumMismatch
  deriving DecidableEq, Repr

/-- Modelled from the spec: `OTPGenerator.tokens_to_bytes` (`generator.py`
is missing from the sources).  The response is split into words
(case-insensitively); six words are required; each is looked up in the
dictionary (unknown word: one error case); the 66 bits are reassembled
and the trailing two checksum bits are verified against the leading 64
(mismatch: a distinct error case); on success the 8 data bytes are
returned. -/
def tokensToBytes (s : List Char) : Except GenError (List Nat) :=
  let ws := (splitWs s).map (List.map Char.toUpper)
  if ws.length = 6 then
    match wordIndices ws with
    | none => .error .unknownToken
    | some gs =>
      let m := gs.foldl (fun a g => 2048 * a + g) 0
      if m % 4 = checksum64 (m / 4) then .ok (natToBytesBE 8 (m / 4))
      else .error .checksumMismatch
  else .error .notSixTokens

/-- Value of a hexadecimal digit character, if it is one (both cases
accepted, as by Python `binascii.unhexlify`). -/
def hexVal (c : Char) : Option Nat :=
  if 48 ≤ c.toNat ∧ c.toNat ≤ 57 then some (c.toNat - 48)
  else if 97 ≤ c.toNat ∧ c.toNat ≤ 102 then some (c.toNat - 87)
  else if 65 ≤ c.toNat ∧ c.toNat ≤ 70 then some (c.toNat - 55)
  else none

/-- `binascii.unhexlify`: an even-length string of hex digits decoded to
bytes, two characters per byte, high nibble first. -/
def unhexlify : List Char → Option (List Nat)
  | [] => some []
  | [_] => none
  | a :: b :: l =>
    match hexVal a, hexVal b, unhexlify l with
    | some x, some y, some bs => some ((16 * x + y) :: bs)
    | _, _, _ => none

/-- The lowercase hex digit character of a nibble. -/
def hexDigit (x : Nat) : Char :=
  if x < 10 then Char.ofNat ('0'.toNat + x)
  else Char.ofNat ('a'.toNat + x - 10)

/-- `binascii.hexlify`: bytes to lowercase hex characters. -/
def hexlify (bs : List Nat) : List Char :=
  bs.flatMap fun b => [hexDigit (b / 16), hexDigit (b % 16)]

/-- Python `str.strip()`: remove leading and trailing whitespace. -/
def stripWs (s : List Char) : List Char :=
  ((s.dropWhile Char.isWhitespace).reverse.dropWhile Char.isWhitespace).reverse

instance {e a : Type} [DecidableEq e] [DecidableEq a] : DecidableEq (Except e a)
  | .ok x, .ok y =>
    if h : x = y then .isTrue (by rw [h]) else .isFalse (by simp [h])
  | .ok _, .error _ => .isFalse (by simp)
  | .error _, .ok _ => .isFalse (by simp)
  | .error x, .error y =>
    if h : x = y then .isTrue (by rw [h]) else .isFalse (by simp [h])

/-- Modelled from the spec: one fold-of-hash step of the chain, per the
algorithm's two hash paths (`generator.py` is missing from the sources).
The MD5 digest is folded by xoring its two halves; the SHA-1 digest by
`sha1DigestFolding`. -/
def foldedHash (algo : List Char) (msg : List Nat) : List Nat :=
  if algo = "md5".toList then
    let d := md5 msg
    strxor (d.take 8) (d.drop 8)
  else if algo = "sha1".toList then
    sha1DigestFolding (sha1 msg)
  else []

/-- Modelled from the spec: `compute_digest(step)` of the hash-chain
generator (`generator.py` is missing from the sources).  Step 0 hashes
the lowercased seed concatenated with the password; step `i+1` hashes the
previous 8-byte chain value. -/
def computeDigest (algo : List Char) (password : List Nat)
    (seed : List Char) : Nat → List Nat
  | 0 => foldedHash algo ((seed.map fun c => c.toLower.toNat) ++ password)
  | n + 1 => foldedHash algo (computeDigest algo password seed n)

/-- The exceptions raised by `server.py`, tagged with their message. -/
inductive SrvError where
  | state (msg : List Char)        -- `OTPStateException`
  | invalidResponse (msg : List Char)  -- `OTPInvalidResponse`
  | store (msg : List Char)        -- `OTPStoreException`
  | keyError                       -- Python `KeyError`
  deriving DecidableEq

/-- `OTPState`: seed, hash algorithm name, step counter, expected digest
(`None` for a bootstrap state) and the response recorded by the last
successful stored validation (`_new_digest_hex`). -/
structure OTPState where
  seed : List Char
  hashAlgo : List Char
  step : Int
  currentDigest : Option (List Nat)
  newDigestHex : Option (List Char)
  deriving DecidableEq

/-- Modelled from the spec: `OTPGenerator.validate_seed` (`generator.py`
is missing from the sources): 1 to 16 characters, alphanumeric only. -/
def validateSeed (seed : List Char) : Except SrvError (List Char) :=
  if seed.length < 1 ∨ 16 < seed.length then
    .error (.state "The seed MUST be of 1 to 16 characters in length".toList)
  else if seed.all Char.isAlphanum then .ok seed
  else
    .error (.state "The seed MUST consist of purely alphanumeric characters".toList)

/-- Modelled from the spec: `OTPGenerator.validate_hash_algo`
(`generator.py` is missing from the sources): only the registered names
`md5` and `sha1` are accepted. -/
def validateHashAlgo (algo : List Char) : Except SrvError (List Char) :=
  if algo = "md5".toList ∨ algo = "sha1".toList then .ok algo
  else .error (.state "hash_algo is not among the known algorithms".toList)

/-- Modelled from the spec: `OTPGenerator.validate_step` (`generator.py`
is missing from the sources): the step must be an integer `≥ 0`. -/
def validateStep (step : Int) : Except SrvError Int :=
  if step < 0 then .error (.state "Step value MUST be >= 0".toList)
  else .ok step

/-- `OTPState.validate_hex`: strips an optional lowercase `0x` prefix
(then also surrounding whitespace, lowercasing the rest), requires
exactly 16 characters, and decodes them as hex. -/
def validateHex (otHex : List Char) : Except SrvError (List Nat) :=
  let s :=
    if otHex.take 2 = "0x".toList then
      (stripWs (otHex.drop 2)).map Char.toLower
    else otHex
  if s.length ≠ 16 then
    .error (.state "The length of the hex should be 16 (representing 64 bits digest)".toList)
  else
    match unhexlify s with
    | some bs => .ok bs
    | none => .error (.state "Invalid OT-hex".toList)

/-- `OTPState.__init__`: validates seed, algorithm and step (in that
order), then the optional one-time hex, and builds the state with
`_new_digest_hex = None`. -/
def mkOTPState (otHex : Option (List Char)) (currentStep : Int)
    (seed : List Char) (hashAlgo : List Char) : Except SrvError OTPState := do
  let s ← validateSeed seed
  let a ← validateHashAlgo hashAlgo
  let st ← validateStep currentStep
  match otHex with
  | none => .ok ⟨s, a, st, none, none⟩
  | some h => do
    let d ← validateHex h
    .ok ⟨s, a, st, some d, none⟩

/-- `OTPState.response_to_bytes`: try six-word token decoding first; on
any token failure fall back to hex validation; if both fail, the
response is invalid. -/
def responseToBytes (response : List Char) : Except SrvError (List Nat) :=
  match tokensToBytes response with
  | .ok bs => .ok bs
  | .error _ =>
    match validateHex response with
    | .ok bs => .ok bs
    | .error _ =>
      .error (.invalidResponse "The response is neither a valid token or hex".toList)

/-- `OTPState.response_validates`: converts the response to bytes (a hard
error if malformed), recomputes one fold-of-hash step, and compares with
the expected digest; a bootstrap state (no expected digest) accepts any
well-formed response.  On success with `storeValidResponse` the response
bytes are recorded in `_new_digest_hex`.  Returns the boolean outcome
together with the (possibly updated) state. -/
def stateResponseValidates (st : OTPState) (response : List Char)
    (storeValidResponse : Bool) : Except SrvError (Bool × OTPState) :=
  match responseToBytes response with
  | .error e => .error e
  | .ok rb =>
    if st.hashAlgo = "md5".toList then
      let digest := md5 rb
      if st.currentDigest = none ∨
          some (strxor (digest.take 8) (digest.drop 8)) = st.currentDigest then
        if storeValidResponse then
          .ok (true, { st with newDigestHex := some (hexlify rb) })
        else .ok (true, st)
      else .ok (false, st)
    else if st.hashAlgo = "sha1".toList then
      if st.currentDigest = none ∨
          some (sha1DigestFolding (sha1 rb)) = st.currentDigest then
        if storeValidResponse then
          .ok (true, { st with newDigestHex := some (hexlify rb) })
        else .ok (true, st)
      else .ok (false, st)
    else .error (.invalidResponse ("Ivalid hash_algo: ".toList ++ st.hashAlgo))

/-- `OTPState.get_next_state`: `None` unless a successful validation was
stored; otherwise a brand-new `OTPState` built from the recorded hex with
the step decremented (whose construction re-validates everything). -/
def getNextState (st : OTPState) : Option (Except SrvError OTPState) :=
  match st.newDigestHex with
  | none => none
  | some h => some (mkOTPState (some h) (st.step - 1) st.seed st.hashAlgo)

variable {K : Type} {V : Type} [DecidableEq K]

/-- First value bound to `k` in an association list (Python `dict` read). -/
def alGet : List (K × V) → K → Option V
  | [], _ => none
  | (k', v) :: l, k => if k' = k then some v else alGet l k

/-- Python `dict` write: replace the value of an existing key in place,
or append a fresh binding at the end. -/
def alInsert : List (K × V) → K → V → List (K × V)
  | [], k, v => [(k, v)]
  | (k', v') :: l, k, v =>
    if k' = k then (k, v) :: l else (k', v') :: alInsert l k v

/-- Python `dict.pop`: drop the binding of `k`. -/
def alPop : List (K × V) → K → List (K × V)
  | [], _ => []
  | (k', v') :: l, k => if k' = k then l else (k', v') :: alPop l k

/-- `OTPStore`, with Python object identity made explicit: `heap` maps an
object id to an `OTPState` value, `fwd` is the `_data` dict (key to state
object) and `rev` the `_states` dict (state object to key); `nextId` is
the allocator for fresh object ids. -/
structure OTPStore where
  nextId : Nat
  heap : List (Nat × OTPState)
  fwd : List (String × Nat)
  rev : List (Nat × String)
  deriving DecidableEq

/-- A store with no states. -/
def emptyStore : OTPStore := ⟨0, [], [], []⟩

/-- Python object construction `OTPState(...)`: allocate a fresh object
id in the heap, holding the given state value. -/
def allocState (s : OTPStore) (st : OTPState) : OTPStore :=
  { s with nextId := s.nextId + 1, heap := alInsert s.heap s.nextId st }

/-- `OTPStore.add_state`: `_data[key] = state; _states[state] = key`,
for an existing state object passed by reference.  The object may already
be stored (under this or another key); its reverse entry is then
overwritten.  A reference not in the heap corresponds to no Python object
and leaves the store unchanged. -/
def addState (s : OTPStore) (key : String) (ref : Nat) : OTPStore :=
  match alGet s.heap ref with
  | none => s
  | some _ =>
    { s with fwd := alInsert s.fwd key ref, rev := alInsert s.rev ref key }

/-- `OTPStore.pop_state`: remove the key from `_data` and the state from
`_states`; a missing key is a `KeyError` and mutates nothing. -/
def popState (s : OTPStore) (key : String) :
    Except SrvError OTPState × OTPStore :=
  match alGet s.fwd key with
  | none => (.error .keyError, s)
  | some oid =>
    match alGet s.heap oid with
    | none => (.error .keyError, { s with fwd := alPop s.fwd key })
    | some st =>
      (.ok st, { s with fwd := alPop s.fwd key, rev := alPop s.rev oid })

/-- `OTPStore.response_validates`: look the key up (missing: `KeyError`),
delegate to the state's `response_validates` (which may mutate the state
object in place), and on a successful stored validation rebind the key to
`get_next_state()` in `_data`, add the new state to `_states` and drop
the old one.  The function returns the outcome together with the store
as left by the call, including the partial in-place state mutation when
building the next state fails. -/
def storeResponseValidates (s : OTPStore) (key : String)
    (response : List Char) (storeValidResponse : Bool) :
    Except SrvError Bool × OTPStore :=
  match alGet s.fwd key with
  | none => (.error .keyError, s)
  | some oid =>
    match alGet s.heap oid with
    | none => (.error .keyError, s)
    | some st =>
      match stateResponseValidates st response storeValidResponse with
      | .error e => (.error e, s)
      | .ok (rvalue, st') =>
        let s1 := { s with heap := alInsert s.heap oid st' }
        match rvalue && storeValidResponse with
        | true =>
          match getNextState st' with
          | none => (.ok rvalue, s1)
          | some (.error e) => (.error e, s1)
          | some (.ok next) =>
            (.ok rvalue,
              { nextId := s1.nextId + 1,
                heap := alInsert s1.heap s1.nextId next,
                fwd := alInsert s1.fwd key s1.nextId,
                rev := alPop (alInsert s1.rev s1.nextId key) oid })
        | false => (.ok rvalue, s1)

/-- The store operations of the claimed invariant: constructing a state
object, adding an object (by reference) under a key, popping a key, and
validating a response. -/
inductive StoreOp where
  | construct (st : OTPState)
  | add (key : String) (ref : Nat)
  | pop (key : String)
  | validate (key : String) (response : List Char) (storeValidResponse : Bool)
  deriving DecidableEq

/-- Apply one operation to the store. -/
def runOp (s : OTPStore) : StoreOp → OTPStore
  | .construct st => allocState s st
  | .add key ref => addState s key ref
  | .pop key => (popState s key).2
  | .validate key resp flag => (storeResponseValidates s key resp flag).2

/-- Apply a sequence of operations. -/
def runOps (s : OTPStore) (ops : List StoreOp) : OTPStore :=
  ops.foldl runOp s

/-- Every `add` in the sequence uses, at the time it executes, a key not
already bound in `_data` and a state object not already in `_states`. -/
def freshAdds : OTPStore → List StoreOp → Bool
  | _, [] => true
  | s, op :: rest =>
    (match op with
     | .add k ref => (alGet s.fwd k).isNone && (alGet s.rev ref).isNone
     | _ => true) && freshAdds (runOp s op) rest

/-- The consistency invariant tying the two dicts of a store together. -/
structure StoreInv (s : OTPStore) : Prop where
  lenEq : s.fwd.length = s.rev.length
  fwdKeysNodup : (s.fwd.map Prod.fst).Nodup
  revKeysNodup : (s.rev.map Prod.fst).Nodup
  fwdRev : ∀ k oid, alGet s.fwd k = some oid → alGet s.rev oid = some k
  revFwd : ∀ oid k, alGet s.rev oid = some k → alGet s.fwd k = some oid
  fwdBound : ∀ k oid, alGet s.fwd k = some oid → oid < s.nextId
  revBound : ∀ oid k, alGet s.rev oid = some k → oid < s.nextId
  heapBound : ∀ oid st, alGet s.heap oid = some st → oid < s.nextId
  fwdHeap : ∀ k oid, alGet s.fwd k = some oid → (alGet s.heap oid).isSome

/-- A bootstrap MD5 state used in concrete store computations. -/
def demoState1 : OTPState := ⟨"TeSt".toList, "md5".toList, 1, none, none⟩

/-- A second state value for concrete store computations. -/
def demoState2 : OTPState := ⟨"TeSt".toList, "md5".toList, 7, none, none⟩

/-- A bound MD5 state at step 1 whose expected digest is the RFC 2289
chain value at step 1 for password `This is a test.`, seed `TeSt`. -/
def demoBound1 : OTPState :=
  ⟨"TeSt".toList, "md5".toList, 1,
    some [0x79, 0x65, 0xe0, 0x54, 0x36, 0xf5, 0x02, 0x9f], none⟩

/-- The concrete operation sequence of the C1 witness. -/
def c1ops : List StoreOp :=
  [.construct demoBound1, .add "sgs" 0, .construct demoState2,
   .add "blackmore" 1, .pop "blackmore",
   .validate "sgs" "9e876134d90499dd".toList true]

/-- The aliasing counterexample sequence: one state object added under
two distinct, previously unbound keys. -/
def c1cexOps : List StoreOp :=
  [.construct demoState1, .add "a" 0, .add "b" 0]

/-- Wellformedness of an `OTPState` as established by its constructor:
valid seed, a known hash algorithm, and a non-negative step. -/
def WFState (st : OTPState) : Prop :=
  validateSeed st.seed = .ok st.seed ∧
  (st.hashAlgo = "md5".toList ∨ st.hashAlgo = "sha1".toList) ∧
  0 ≤ st.step

/-- A one-state store used in the C10 witness. -/
def c10store : OTPStore := addState (allocState emptyStore demoBound1) "sgs" 0

/-- The validated step-1 state of the C2 witness. -/
def c2state : OTPState :=
  ⟨"TeSt".toList, "md5".toList, 1,
    some [0x79, 0x65, 0xe0, 0x54, 0x36, 0xf5, 0x02, 0x9f],
    some (hexlify [0x9e, 0x87, 0x61, 0x34, 0xd9, 0x04, 0x99, 0xdd])⟩

/-- A bound MD5 state whose expected digest is all-zero, for mismatch
witnesses. -/
def zeroDigestState : OTPState :=
  ⟨"TeSt".toList, "md5".toList, 1,
    some [0, 0, 0, 0, 0, 0, 0, 0], none⟩

/-- The RFC 2289 Appendix C test password, as bytes. -/
def pwTest : List Nat := "This is a test.".toList.map Char.toNat

/-- A state expecting the MD5 chain value at step 1 for the Appendix C
password and seed. -/
def c6state : OTPState :=
  ⟨"TeSt".toList, "md5".toList, 1,
    some (computeDigest "md5".toList pwTest "TeSt".toList 1), none⟩

/-- The bytes denoted by a string of hex digit characters, high nibble
first. -/
def hexToBytesF : List Char → List Nat
  | a :: b :: l => (16 * (hexVal a).getD 0 + (hexVal b).getD 0) :: hexToBytesF l
  | _ => []

/-- Tail-recursive strict-increase check on a list of numbers. -/
def chainLtB : List Nat → Bool
  | [] => true
  | [_] => true
  | a :: b :: l => decide (a < b) && chainLtB (b :: l)

/-- A sorting key injective-enough for the dictionary: words are ranked
by the two sections (length ≤ 3 first) and lexicographically inside each,
by padding to four 21-bit character slots. -/
def dictKey (w : List Char) : Nat :=
  (if 4 ≤ w.length then 2 ^ 100 else 0) +
    (w.foldl (fun a c => a * 2097152 + c.toNat) 0) * 2097152 ^ (4 - w.length)

example : md5 [116, 101, 115, 116, 84, 104, 105, 115, 32, 105, 115, 32,
    97, 32, 116, 101, 115, 116, 46] =
    [175, 255, 166, 107, 137, 240, 109, 57, 49, 120, 199, 95, 80, 244, 244, 228] := by
  decide

example : sha1 [116, 101, 115, 116, 84, 104, 105, 115, 32, 105, 115, 32,
    97, 32, 116, 101, 115, 116, 46] =
    [212, 182, 199, 84, 192, 130, 68, 152, 16, 100, 110, 133, 52, 13,
     217, 15, 37, 184, 55, 106] := by
  decide

example : sha1DigestFolding [212, 182, 199, 84, 192, 130, 68, 152, 16, 100,
    110, 133, 52, 13, 217, 15, 37, 184, 55, 106] =
    [187, 158, 106, 225, 151, 157, 143, 244] := by
  decide

example : splitWs "INCH SEA  ANNE".toList = ["INCH".toList, "SEA".toList, "ANNE".toList] := by
  decide

example : tokensToBytes "A A A A A A".toList = .ok [0, 0, 0, 0, 0, 0, 0, 0] := by
  decide

example : unhexlify "9e876134D90499dd".toList =
    some [0x9e, 0x87, 0x61, 0x34, 0xd9, 0x04, 0x99, 0xdd] := by
  decide

example : hexlify [0x9e, 0x87, 0x61, 0x34] = "9e876134".toList := by
  decide

theorem alGet_insert_self (l : List (K × V)) (k : K) (v : V) :
    alGet (alInsert l k v) k = some v := by
  induction l with
  | nil => simp [alInsert, alGet]
  | cons p l ih =>
    obtain ⟨k', v'⟩ := p
    by_cases h : k' = k <;> simp [alInsert, alGet, h, ih]

theorem alGet_insert_ne (l : List (K × V)) {k k' : K} (v : V) (h : k' ≠ k) :
    alGet (alInsert l k v) k' = alGet l k' := by
  induction l with
  | nil => simp [alInsert, alGet, Ne.symm h]
  | cons p l ih =>
    obtain ⟨k'', v'⟩ := p
    by_cases hk : k'' = k
    · subst hk
      simp [alInsert, alGet, Ne.symm h]
    · simp [alInsert, alGet, hk, ih]

theorem alGet_eq_none_iff (l : List (K × V)) (k : K) :
    alGet l k = none ↔ k ∉ l.map Prod.fst := by
  induction l with
  | nil => simp [alGet]
  | cons p l ih =>
    obtain ⟨k', v⟩ := p
    by_cases h : k' = k
    · subst h
      simp [alGet]
    · simp [alGet, h, ih, Ne.symm h]

theorem alInsert_length_absent (l : List (K × V)) {k : K} (v : V)
    (h : alGet l k = none) : (alInsert l k v).length = l.length + 1 := by
  induction l with
  | nil => simp [alInsert]
  | cons p l ih =>
    obtain ⟨k', v'⟩ := p
    by_cases hk : k' = k
    · simp [alGet, hk] at h
    · simp [alGet, hk] at h
      simp [alInsert, hk, ih h]

theorem alInsert_length_present (l : List (K × V)) {k : K} (v : V)
    (h : (alGet l k).isSome) : (alInsert l k v).length = l.length := by
  induction l with
  | nil => simp [alGet] at h
  | cons p l ih =>
    obtain ⟨k', v'⟩ := p
    by_cases hk : k' = k
    · simp [alInsert, hk]
    · simp [alGet, hk] at h
      simp [alInsert, hk, ih h]

theorem alInsert_keys_present (l : List (K × V)) {k : K} (v : V)
    (h : (alGet l k).isSome) :
    (alInsert l k v).map Prod.fst = l.map Prod.fst := by
  induction l with
  | nil => simp [alGet] at h
  | cons p l ih =>
    obtain ⟨k', v'⟩ := p
    by_cases hk : k' = k
    · simp [alInsert, hk]
    · simp [alGet, hk] at h
      simp [alInsert, hk, ih h]

theorem alInsert_keys_absent (l : List (K × V)) {k : K} (v : V)
    (h : alGet l k = none) :
    (alInsert l k v).map Prod.fst = l.map Prod.fst ++ [k] := by
  induction l with
  | nil => simp [alInsert]
  | cons p l ih =>
    obtain ⟨k', v'⟩ := p
    by_cases hk : k' = k
    · simp [alGet, hk] at h
    · simp [alGet, hk] at h
      simp [alInsert, hk, ih h]

theorem alPop_length (l : List (K × V)) (k : K)
    (h : (alGet l k).isSome) : (alPop l k).length + 1 = l.length := by
  induction l with
  | nil => simp [alGet] at h
  | cons p l ih =>
    obtain ⟨k', v'⟩ := p
    by_cases hk : k' = k
    · simp [alPop, hk]
    · simp [alGet, hk] at h
      simp [alPop, hk, ih h]

theorem alGet_pop_ne (l : List (K × V)) {k k' : K} (h : k' ≠ k) :
    alGet (alPop l k) k' = alGet l k' := by
  induction l with
  | nil => simp [alPop]
  | cons p l ih =>
    obtain ⟨k'', v'⟩ := p
    by_cases hk : k'' = k
    · subst hk
      simp [alPop, alGet, Ne.symm h]
    · simp [alPop, alGet, hk, ih]

theorem alPop_keys_sublist (l : List (K × V)) (k : K) :
    ((alPop l k).map Prod.fst).Sublist (l.map Prod.fst) := by
  induction l with
  | nil => simp [alPop]
  | cons p l ih =>
    obtain ⟨k', v'⟩ := p
    by_cases hk : k' = k
    · simp [alPop, hk]
    · simpa [alPop, hk] using ih.cons₂ k'

theorem alGet_pop_self (l : List (K × V)) (k : K)
    (nd : (l.map Prod.fst).Nodup) : alGet (alPop l k) k = none := by
  induction l with
  | nil => simp [alPop, alGet]
  | cons p l ih =>
    obtain ⟨k', v'⟩ := p
    rw [List.map_cons, List.nodup_cons] at nd
    by_cases hk : k' = k
    · subst hk
      simpa [alPop, alGet_eq_none_iff] using nd.1
    · simp [alPop, alGet, hk, ih nd.2]

theorem alGet_isSome_of_eq_some {l : List (K × V)} {k : K} {v : V}
    (h : alGet l k = some v) : (alGet l k).isSome := by
  simp [h]

theorem alGet_pop_some {l : List (K × V)} {k k' : K} {v : V}
    (nd : (l.map Prod.fst).Nodup) (h : alGet (alPop l k) k' = some v) :
    alGet l k' = some v := by
  by_cases hk : k' = k
  · subst hk
    rw [alGet_pop_self l k' nd] at h
    cases h
  · rwa [alGet_pop_ne l hk] at h

theorem alGet_insert_isSome (l : List (K × V)) (k : K) (v : V) (k' : K)
    (h : (alGet l k').isSome ∨ k' = k) :
    (alGet (alInsert l k v) k').isSome := by
  by_cases hk : k' = k
  · subst hk
    simp [alGet_insert_self]
  · rw [alGet_insert_ne l v hk]
    exact h.resolve_right hk

/-- The empty store satisfies the invariant. -/
theorem storeInv_empty : StoreInv emptyStore := by
  refine ⟨rfl, by simp [emptyStore], by simp [emptyStore],
      ?_, ?_, ?_, ?_, ?_, ?_⟩ <;>
    intro a b h <;> simp [emptyStore, alGet] at h

/-- Mutating a state object in place preserves the invariant. -/
theorem storeInv_heapInsert {s : OTPStore} (inv : StoreInv s)
    (oid : Nat) (st' : OTPState) (hb : oid < s.nextId) :
    StoreInv { s with heap := alInsert s.heap oid st' } := by
  refine ⟨inv.lenEq, inv.fwdKeysNodup, inv.revKeysNodup, inv.fwdRev,
    inv.revFwd, inv.fwdBound, inv.revBound, ?_, ?_⟩
  · intro o st0 h
    by_cases ho : o = oid
    · subst ho
      exact hb
    · rw [alGet_insert_ne _ _ ho] at h
      exact inv.heapBound _ _ h
  · intro k o h
    exact alGet_insert_isSome _ _ _ _ (by
      by_cases ho : o = oid
      · exact Or.inr ho
      · exact Or.inl (inv.fwdHeap k o h))

/-- Constructing a fresh state object preserves the invariant. -/
theorem storeInv_alloc {s : OTPStore} (inv : StoreInv s) (st : OTPState) :
    StoreInv (allocState s st) := by
  constructor
  · exact inv.lenEq
  · exact inv.fwdKeysNodup
  · exact inv.revKeysNodup
  · exact inv.fwdRev
  · exact inv.revFwd
  · intro k oid h
    exact Nat.lt_succ_of_lt (inv.fwdBound _ _ h)
  · intro oid k h
    exact Nat.lt_succ_of_lt (inv.revBound _ _ h)
  · intro oid st0 h
    simp only [allocState] at h
    by_cases ho : oid = s.nextId
    · subst ho
      exact Nat.lt_succ_self _
    · rw [alGet_insert_ne _ _ ho] at h
      exact Nat.lt_succ_of_lt (inv.heapBound _ _ h)
  · intro k oid h
    simp only [allocState]
    exact alGet_insert_isSome _ _ _ _ (Or.inl (inv.fwdHeap _ _ h))

/-- `add_state` with a not-yet-bound key and a not-yet-stored state object
preserves the invariant. -/
theorem storeInv_add {s : OTPStore} (inv : StoreInv s) (key : String)
    (ref : Nat) (freshK : alGet s.fwd key = none)
    (freshR : alGet s.rev ref = none) :
    StoreInv (addState s key ref) := by
  cases hh : alGet s.heap ref with
  | none => simpa [addState, hh] using inv
  | some st =>
    have href : ref < s.nextId := inv.heapBound _ _ hh
    constructor
    · simp only [addState, hh]
      rw [alInsert_length_absent _ _ freshK, alInsert_length_absent _ _ freshR,
        inv.lenEq]
    · simp only [addState, hh]
      rw [alInsert_keys_absent _ _ freshK]
      simpa [List.nodup_append, inv.fwdKeysNodup] using
        (alGet_eq_none_iff _ _).mp freshK
    · simp only [addState, hh]
      rw [alInsert_keys_absent _ _ freshR]
      simpa [List.nodup_append, inv.revKeysNodup] using
        (alGet_eq_none_iff _ _).mp freshR
    · intro k oid h
      simp only [addState, hh] at h ⊢
      by_cases hk : k = key
      · subst hk
        rw [alGet_insert_self] at h
        cases h
        rw [alGet_insert_self]
      · rw [alGet_insert_ne _ _ hk] at h
        have ho : oid ≠ ref := by
          intro ho
          subst ho
          rw [inv.fwdRev _ _ h] at freshR
          cases freshR
        rw [alGet_insert_ne _ _ ho]
        exact inv.fwdRev _ _ h
    · intro oid k h
      simp only [addState, hh] at h ⊢
      by_cases ho : oid = ref
      · subst ho
        rw [alGet_insert_self] at h
        cases h
        rw [alGet_insert_self]
      · rw [alGet_insert_ne _ _ ho] at h
        have hk : k ≠ key := by
          intro hk
          subst hk
          rw [inv.revFwd _ _ h] at freshK
          cases freshK
        rw [alGet_insert_ne _ _ hk]
        exact inv.revFwd _ _ h
    · intro k oid h
      simp only [addState, hh] at h ⊢
      by_cases hk : k = key
      · subst hk
        rw [alGet_insert_self] at h
        cases h
        exact href
      · rw [alGet_insert_ne _ _ hk] at h
        exact inv.fwdBound _ _ h
    · intro oid k h
      simp only [addState, hh] at h ⊢
      by_cases ho : oid = ref
      · subst ho
        exact href
      · rw [alGet_insert_ne _ _ ho] at h
        exact inv.revBound _ _ h
    · intro oid st0 h
      simp only [addState, hh] at h ⊢
      exact inv.heapBound _ _ h
    · intro k oid h
      simp only [addState, hh] at h ⊢
      by_cases hk : k = key
      · subst hk
        rw [alGet_insert_self] at h
        cases h
        simp [hh]
      · rw [alGet_insert_ne _ _ hk] at h
        exact inv.fwdHeap _ _ h

/-- `pop_state` preserves the invariant. -/
theorem storeInv_pop {s : OTPStore} (inv : StoreInv s) (key : String) :
    StoreInv (popState s key).2 := by
  cases hf : alGet s.fwd key with
  | none => simpa [popState, hf] using inv
  | some oid =>
    cases hh : alGet s.heap oid with
    | none =>
      have := inv.fwdHeap _ _ hf
      rw [hh] at this
      cases this
    | some st =>
      have hrev : alGet s.rev oid = some key := inv.fwdRev _ _ hf
      simp only [popState, hf, hh]
      constructor
      · have h1 := alPop_length s.fwd key (by simp [hf])
        have h2 := alPop_length s.rev oid (by simp [hrev])
        have h3 := inv.lenEq
        simp only
        omega
      · exact inv.fwdKeysNodup.sublist (alPop_keys_sublist _ _)
      · exact inv.revKeysNodup.sublist (alPop_keys_sublist _ _)
      · intro k o h
        simp only at h ⊢
        have horig := alGet_pop_some inv.fwdKeysNodup h
        have hk : k ≠ key := by
          intro hk
          subst hk
          rw [alGet_pop_self _ _ inv.fwdKeysNodup] at h
          cases h
        have ho : o ≠ oid := by
          intro ho
          subst ho
          have := inv.fwdRev _ _ horig
          rw [hrev] at this
          cases this
          exact hk rfl
        rw [alGet_pop_ne _ ho]
        exact inv.fwdRev _ _ horig
      · intro o k h
        simp only at h ⊢
        have horig := alGet_pop_some inv.revKeysNodup h
        have ho : o ≠ oid := by
          intro ho
          subst ho
          rw [alGet_pop_self _ _ inv.revKeysNodup] at h
          cases h
        have hk : k ≠ key := by
          intro hk
          subst hk
          have := inv.revFwd _ _ horig
          rw [hf] at this
          cases this
          exact ho rfl
        rw [alGet_pop_ne _ hk]
        exact inv.revFwd _ _ horig
      · intro k o h
        exact inv.fwdBound _ _ (alGet_pop_some inv.fwdKeysNodup h)
      · intro o k h
        exact inv.revBound _ _ (alGet_pop_some inv.revKeysNodup h)
      · intro o st0 h
        exact inv.heapBound _ _ h
      · intro k o h
        exact inv.fwdHeap _ _ (alGet_pop_some inv.fwdKeysNodup h)

/-- `OTPStore.response_validates` preserves the invariant. -/
theorem storeInv_validate {s : OTPStore} (inv : StoreInv s) (key : String)
    (resp : List Char) (flag : Bool) :
    StoreInv (storeResponseValidates s key resp flag).2 := by
  cases hf : alGet s.fwd key with
  | none => simpa [storeResponseValidates, hf] using inv
  | some oid =>
    cases hh : alGet s.heap oid with
    | none => simpa [storeResponseValidates, hf, hh] using inv
    | some st =>
      cases hv : stateResponseValidates st resp flag with
      | error e => simpa [storeResponseValidates, hf, hh, hv] using inv
      | ok p =>
        obtain ⟨rv, st'⟩ := p
        have inv1 : StoreInv { s with heap := alInsert s.heap oid st' } :=
          storeInv_heapInsert inv oid st' (inv.fwdBound _ _ hf)
        cases hb : rv && flag with
        | false => simpa [storeResponseValidates, hf, hh, hv, hb] using inv1
        | true =>
          cases hgn : getNextState st' with
          | none => simpa [storeResponseValidates, hf, hh, hv, hb, hgn] using inv1
          | some r =>
            cases r with
            | error e =>
              simpa [storeResponseValidates, hf, hh, hv, hb, hgn] using inv1
            | ok next =>
              have hoid_lt : oid < s.nextId := inv.fwdBound _ _ hf
              have hoid_ne : oid ≠ s.nextId := Nat.ne_of_lt hoid_lt
              have hrevoid : alGet s.rev oid = some key := inv.fwdRev _ _ hf
              have hrev_nid : alGet s.rev s.nextId = none := by
                cases hr : alGet s.rev s.nextId with
                | none => rfl
                | some k => exact absurd (inv.revBound _ _ hr) (lt_irrefl _)
              have hInsKeys : (alInsert s.rev s.nextId key).map Prod.fst =
                  s.rev.map Prod.fst ++ [s.nextId] :=
                alInsert_keys_absent _ _ hrev_nid
              have hInsNodup :
                  ((alInsert s.rev s.nextId key).map Prod.fst).Nodup := by
                rw [hInsKeys]
                simpa [List.nodup_append, inv.revKeysNodup] using
                  (alGet_eq_none_iff _ _).mp hrev_nid
              have hInsOid :
                  alGet (alInsert s.rev s.nextId key) oid = some key := by
                rw [alGet_insert_ne _ _ hoid_ne]
                exact hrevoid
              simp only [storeResponseValidates, hf, hh, hv, hb, hgn]
              constructor
              · dsimp only
                have h1 := alInsert_length_present s.fwd s.nextId
                  (alGet_isSome_of_eq_some hf)
                have h2 := alPop_length (alInsert s.rev s.nextId key) oid
                  (alGet_isSome_of_eq_some hInsOid)
                have h3 := alInsert_length_absent s.rev key hrev_nid
                have h4 := inv.lenEq
                omega
              · dsimp only
                rw [alInsert_keys_present _ _ (alGet_isSome_of_eq_some hf)]
                exact inv.fwdKeysNodup
              · dsimp only
                exact hInsNodup.sublist (alPop_keys_sublist _ _)
              · intro k o h
                dsimp only at h ⊢
                by_cases hk : k = key
                · subst hk
                  rw [alGet_insert_self] at h
                  cases h
                  rw [alGet_pop_ne _ (Ne.symm hoid_ne), alGet_insert_self]
                · rw [alGet_insert_ne _ _ hk] at h
                  have ho_oid : o ≠ oid := by
                    intro ho
                    subst ho
                    have h2 := inv.fwdRev _ _ h
                    rw [hrevoid] at h2
                    cases h2
                    exact hk rfl
                  have ho_nid : o ≠ s.nextId :=
                    Nat.ne_of_lt (inv.fwdBound _ _ h)
                  rw [alGet_pop_ne _ ho_oid, alGet_insert_ne _ _ ho_nid]
                  exact inv.fwdRev _ _ h
              · intro o k h
                dsimp only at h ⊢
                have ho_oid : o ≠ oid := by
                  intro ho
                  subst ho
                  rw [alGet_pop_self _ _ hInsNodup] at h
                  cases h
                rw [alGet_pop_ne _ ho_oid] at h
                by_cases ho : o = s.nextId
                · subst ho
                  rw [alGet_insert_self] at h
                  cases h
                  rw [alGet_insert_self]
                · rw [alGet_insert_ne _ _ ho] at h
                  have hk : k ≠ key := by
                    intro hkk
                    subst hkk
                    have h2 := inv.revFwd _ _ h
                    rw [hf] at h2
                    cases h2
                    exact ho_oid rfl
                  rw [alGet_insert_ne _ _ hk]
                  exact inv.revFwd _ _ h
              · intro k o h
                dsimp only at h ⊢
                by_cases hk : k = key
                · subst hk
                  rw [alGet_insert_self] at h
                  cases h
                  exact Nat.lt_succ_self _
                · rw [alGet_insert_ne _ _ hk] at h
                  exact Nat.lt_succ_of_lt (inv.fwdBound _ _ h)
              · intro o k h
                dsimp only at h ⊢
                have ho_oid : o ≠ oid := by
                  intro ho
                  subst ho
                  rw [alGet_pop_self _ _ hInsNodup] at h
                  cases h
                rw [alGet_pop_ne _ ho_oid] at h
                by_cases ho : o = s.nextId
                · subst ho
                  exact Nat.lt_succ_self _
                · rw [alGet_insert_ne _ _ ho] at h
                  exact Nat.lt_succ_of_lt (inv.revBound _ _ h)
              · intro o st0 h
                dsimp only at h ⊢
                by_cases ho : o = s.nextId
                · subst ho
                  exact Nat.lt_succ_self _
                · rw [alGet_insert_ne _ _ ho] at h
                  by_cases ho2 : o = oid
                  · subst ho2
                    exact Nat.lt_succ_of_lt hoid_lt
                  · rw [alGet_insert_ne _ _ ho2] at h
                    exact Nat.lt_succ_of_lt (inv.heapBound _ _ h)
              · intro k o h
                dsimp only at h ⊢
                by_cases hk : k = key
                · subst hk
                  rw [alGet_insert_self] at h
                  cases h
                  simp [alGet_insert_self]
                · rw [alGet_insert_ne _ _ hk] at h
                  have ho_nid : o ≠ s.nextId :=
                    Nat.ne_of_lt (inv.fwdBound _ _ h)
                  rw [alGet_insert_ne _ _ ho_nid]
                  by_cases ho : o = oid
                  · subst ho
                    simp [alGet_insert_self]
                  · rw [alGet_insert_ne _ _ ho]
                    exact inv.fwdHeap _ _ h

/-- Running a fresh-keyed operation sequence preserves the invariant. -/
theorem storeInv_runOps {s : OTPStore} (inv : StoreInv s)
    (ops : List StoreOp) (h : freshAdds s ops = true) :
    StoreInv (runOps s ops) := by
  induction ops generalizing s with
  | nil => simpa [runOps] using inv
  | cons op rest ih =>
    cases op with
    | construct st =>
      simp only [freshAdds, Bool.and_eq_true] at h
      simpa [runOps, List.foldl_cons, runOp] using
        ih (storeInv_alloc inv st) h.2
    | add k ref =>
      simp only [freshAdds, Bool.and_eq_true, Option.isNone_iff_eq_none] at h
      simpa [runOps, List.foldl_cons, runOp] using
        ih (storeInv_add inv k ref h.1.1 h.1.2) h.2
    | pop k =>
      simp only [freshAdds, Bool.and_eq_true] at h
      simpa [runOps, List.foldl_cons, runOp] using
        ih (storeInv_pop inv k) h.2
    | validate k r f =>
      simp only [freshAdds, Bool.and_eq_true] at h
      simpa [runOps, List.foldl_cons, runOp] using
        ih (storeInv_validate inv k r f) h.2

/-- C1, counterexample: the claim quantifies over arbitrary operation
sequences, but `add_state` stores the passed object by reference, so
adding one state object under two distinct, previously unbound keys
(`add_state("a", s); add_state("b", s)`) leaves `_data` with two entries
while `_states` has one, with `_states[s]` overwritten to `"b"`. -/
theorem c1_store_bijection_cex :
    (runOps emptyStore c1cexOps).fwd.length = 2 ∧
    (runOps emptyStore c1cexOps).rev.length = 1 ∧
    alGet (runOps emptyStore c1cexOps).fwd "a" = some 0 ∧
    alGet (runOps emptyStore c1cexOps).rev 0 = some "b" := by
  decide

/-- C1 (amended): after any sequence of `add_state`/`pop_state`/
`response_validates(..., store=true)` operations from an empty store in
which every `add_state` uses a key not bound at that moment and a state
object not then present in the reverse map, the forward map and the
reverse map have equal sizes, and the reverse entry of the state object
bound to any key `k` is exactly `k`. -/
theorem c1_store_bijection (ops : List StoreOp)
    (h : freshAdds emptyStore ops = true) :
    (runOps emptyStore ops).fwd.length = (runOps emptyStore ops).rev.length ∧
    ∀ k oid, alGet (runOps emptyStore ops).fwd k = some oid →
      alGet (runOps emptyStore ops).rev oid = some k := by
  have inv := storeInv_runOps storeInv_empty ops h
  exact ⟨inv.lenEq, inv.fwdRev⟩

/-- C1, witness at a concrete operation sequence (two constructed and
added states, a pop, and a successful stored validation). -/
theorem c1_store_bijection_witness :
    freshAdds emptyStore c1ops = true ∧
    ((runOps emptyStore c1ops).fwd.length =
        (runOps emptyStore c1ops).rev.length ∧
      ∀ k oid, alGet (runOps emptyStore c1ops).fwd k = some oid →
        alGet (runOps emptyStore c1ops).rev oid = some k) :=
  ⟨by decide, c1_store_bijection c1ops (by decide)⟩

/-- C10: whenever `OTPStore.response_validates` returns `False` or raises
(invalid response, missing key, or a failure while constructing the next
state), `_data` and `_states` are left unchanged: every key stays bound
to the same state object and the reverse map is untouched.  (The looked-up
state object itself may have recorded the pending response in place, which
does not change any binding.) -/
theorem c10_store_frame (s : OTPStore) (key : String) (resp : List Char)
    (flag : Bool)
    (h : (storeResponseValidates s key resp flag).1 ≠ .ok true) :
    (storeResponseValidates s key resp flag).2.fwd = s.fwd ∧
    (storeResponseValidates s key resp flag).2.rev = s.rev := by
  cases hf : alGet s.fwd key with
  | none => simp [storeResponseValidates, hf]
  | some oid =>
    cases hh : alGet s.heap oid with
    | none => simp [storeResponseValidates, hf, hh]
    | some st =>
      cases hv : stateResponseValidates st resp flag with
      | error e => simp [storeResponseValidates, hf, hh, hv]
      | ok p =>
        obtain ⟨rv, st'⟩ := p
        cases rv with
        | false => simp [storeResponseValidates, hf, hh, hv]
        | true =>
          cases flag with
          | false => simp [storeResponseValidates, hf, hh, hv]
          | true =>
            cases hgn : getNextState st' with
            | none => simp [storeResponseValidates, hf, hh, hv, hgn]
            | some r =>
              cases r with
              | error e => simp [storeResponseValidates, hf, hh, hv, hgn]
              | ok next =>
                exact absurd (by simp [storeResponseValidates, hf, hh, hv, hgn]) h

theorem hexVal_hexDigit (x : Nat) (h : x < 16) :
    hexVal (hexDigit x) = some x := by
  interval_cases x <;> decide

theorem hexDigit_ne_x (x : Nat) (h : x < 16) : hexDigit x ≠ 'x' := by
  interval_cases x <;> decide

theorem hexlify_cons (b : Nat) (bs : List Nat) :
    hexlify (b :: bs) = hexDigit (b / 16) :: hexDigit (b % 16) :: hexlify bs := by
  simp [hexlify]

theorem unhexlify_hexlify (bs : List Nat) (h : ∀ b ∈ bs, b < 256) :
    unhexlify (hexlify bs) = some bs := by
  induction bs with
  | nil => rfl
  | cons b bs ih =>
    have hb : b < 256 := h b (by simp)
    have h1 : b / 16 < 16 := by omega
    have h2 : b % 16 < 16 := by omega
    have hrest : ∀ x ∈ bs, x < 256 := fun x hx => h x (by simp [hx])
    rw [hexlify_cons]
    simp only [unhexlify, hexVal_hexDigit _ h1, hexVal_hexDigit _ h2,
      ih hrest]
    have hbb : 16 * (b / 16) + b % 16 = b := by omega
    rw [hbb]

theorem hexlify_length (bs : List Nat) : (hexlify bs).length = 2 * bs.length := by
  induction bs with
  | nil => rfl
  | cons b bs ih =>
    simp only [hexlify, List.flatMap_cons] at ih ⊢
    simp [ih]
    omega

theorem validateHex_hexlify (bs : List Nat) (hlen : bs.length = 8)
    (hb : ∀ b ∈ bs, b < 256) : validateHex (hexlify bs) = .ok bs := by
  obtain ⟨b0, rest, rfl⟩ : ∃ b0 rest, bs = b0 :: rest := by
    cases bs with
    | nil => simp at hlen
    | cons b0 rest => exact ⟨b0, rest, rfl⟩
  have hb0 : b0 < 256 := hb b0 (by simp)
  have hx : hexDigit (b0 % 16) ≠ 'x' := hexDigit_ne_x _ (by omega)
  have hpre : ¬((hexlify (b0 :: rest)).take 2 = "0x".toList) := by
    rw [hexlify_cons]
    intro hc
    rw [show "0x".toList = ['0', 'x'] from rfl] at hc
    simp [List.take] at hc
    exact hx hc.2
  have hl : (hexlify (b0 :: rest)).length = 16 := by
    rw [hexlify_length]
    omega
  simp only [validateHex, if_neg hpre, hl, if_neg (by omega : ¬(16 : Nat) ≠ 16)]
  rw [unhexlify_hexlify _ hb]

/-- C3: a validated state at step 0 cannot advance: `get_next_state`
surfaces the construction-time `ValidationError` for step −1 (`Step value
MUST be >= 0`); it never silently yields a state past step 0. -/
theorem c3_step_zero_rejected (st : OTPState) (hx : List Char)
    (wf : WFState st) (h0 : st.step = 0) (hv : st.newDigestHex = some hx) :
    getNextState st =
      some (.error (.state "Step value MUST be >= 0".toList)) := by
  obtain ⟨hs, ha, _⟩ := wf
  simp only [getNextState, hv, mkOTPState, hs, h0]
  rcases ha with ha | ha <;>
    simp [ha, validateHashAlgo, validateStep, Except.bind, bind]

/-- C3, witness: a concrete validated MD5 state at step 0. -/
theorem c3_step_zero_rejected_witness :
    (WFState ⟨"TeSt".toList, "md5".toList, 0,
        some [0x9e, 0x87, 0x61, 0x34, 0xd9, 0x04, 0x99, 0xdd],
        some "9e876134d90499dd".toList⟩ ∧
      (⟨"TeSt".toList, "md5".toList, 0,
        some [0x9e, 0x87, 0x61, 0x34, 0xd9, 0x04, 0x99, 0xdd],
        some "9e876134d90499dd".toList⟩ : OTPState).step = 0) ∧
    getNextState ⟨"TeSt".toList, "md5".toList, 0,
        some [0x9e, 0x87, 0x61, 0x34, 0xd9, 0x04, 0x99, 0xdd],
        some "9e876134d90499dd".toList⟩ =
      some (.error (.state "Step value MUST be >= 0".toList)) :=
  ⟨⟨⟨by decide, Or.inl rfl, by decide⟩, rfl⟩,
    c3_step_zero_rejected _ "9e876134d90499dd".toList
      ⟨by decide, Or.inl rfl, by decide⟩ rfl rfl⟩

/-- C5: a bootstrap state (no expected digest) accepts every response
that `response_to_bytes` can convert, returning `True` regardless of the
response's value. -/
theorem c5_bootstrap_accepts (st : OTPState) (resp : List Char)
    (rb : List Nat) (flag : Bool)
    (ha : st.hashAlgo = "md5".toList ∨ st.hashAlgo = "sha1".toList)
    (hb : st.currentDigest = none)
    (hr : responseToBytes resp = .ok rb) :
    stateResponseValidates st resp flag =
      .ok (true, if flag then { st with newDigestHex := some (hexlify rb) }
        else st) := by
  rcases ha with ha | ha <;>
    cases flag <;>
      simp [stateResponseValidates, hr, hb, ha]

/-- C5, witness: a bootstrap MD5 state accepts the concrete hex response
`0x1234567812345678`. -/
theorem c5_bootstrap_accepts_witness :
    ((demoState1.hashAlgo = "md5".toList ∨ demoState1.hashAlgo = "sha1".toList) ∧
      demoState1.currentDigest = none ∧
      responseToBytes "0x1234567812345678".toList =
        .ok [0x12, 0x34, 0x56, 0x78, 0x12, 0x34, 0x56, 0x78]) ∧
    stateResponseValidates demoState1 "0x1234567812345678".toList true =
      .ok (true, { demoState1 with
        newDigestHex := some (hexlify [0x12, 0x34, 0x56, 0x78, 0x12, 0x34, 0x56, 0x78]) }) := by
  refine ⟨⟨Or.inl rfl, rfl, by decide⟩, ?_⟩
  have h := c5_bootstrap_accepts demoState1 "0x1234567812345678".toList
    [0x12, 0x34, 0x56, 0x78, 0x12, 0x34, 0x56, 0x78] true
    (Or.inl rfl) rfl (by decide)
  simpa using h

/-- C10, witness: a well-formed but wrong response yields `False` and the
concrete store's two maps are unchanged. -/
theorem c10_store_frame_witness :
    (storeResponseValidates c10store "sgs" "0000000000000000".toList true).1 ≠
        Except.ok true ∧
    ((storeResponseValidates c10store "sgs" "0000000000000000".toList true).2.fwd =
        c10store.fwd ∧
      (storeResponseValidates c10store "sgs" "0000000000000000".toList true).2.rev =
        c10store.rev) :=
  ⟨by decide,
    c10_store_frame c10store "sgs" "0000000000000000".toList true (by decide)⟩

/-- C2, counterexample: the claim as stated covers every state with a
stored successful validation, but at step 0 `get_next_state` raises the
step validation error instead of returning a next state. -/
theorem c2_next_state_cex :
    getNextState ⟨"TeSt".toList, "md5".toList, 0,
        some [0x9e, 0x87, 0x61, 0x34, 0xd9, 0x04, 0x99, 0xdd],
        some "9e876134d90499dd".toList⟩ =
      some (.error (.state "Step value MUST be >= 0".toList)) := by
  decide

/-- C2 (amended): a state with no stored validation has no next state;
and for every well-formed state with step ≥ 1 whose stored validation
recorded response bytes `rb`, `get_next_state` returns a brand-new state
with the step decremented by one, the same seed and algorithm, expected
digest exactly `rb`, and no pending validation. -/
theorem c2_next_state :
    (∀ st : OTPState, st.newDigestHex = none → getNextState st = none) ∧
    (∀ (st : OTPState) (rb : List Nat), WFState st → 1 ≤ st.step →
      st.newDigestHex = some (hexlify rb) → rb.length = 8 →
      (∀ b ∈ rb, b < 256) →
      getNextState st =
        some (.ok ⟨st.seed, st.hashAlgo, st.step - 1, some rb, none⟩)) := by
  constructor
  · intro st h
    simp [getNextState, h]
  · intro st rb wf hstep hnew hlen hb
    obtain ⟨hs, ha, _⟩ := wf
    have hstep1 : ¬(st.step - 1 < 0) := by omega
    simp only [getNextState, hnew, mkOTPState, hs]
    rcases ha with ha | ha <;>
      simp [ha, validateHashAlgo, validateStep, hstep1, Except.bind, bind,
        validateHex_hexlify rb hlen hb]

/-- C2, witness: both parts at concrete states. -/
theorem c2_next_state_witness :
    (demoState1.newDigestHex = none ∧ getNextState demoState1 = none) ∧
    ((WFState c2state ∧ 1 ≤ c2state.step ∧
        c2state.newDigestHex =
          some (hexlify [0x9e, 0x87, 0x61, 0x34, 0xd9, 0x04, 0x99, 0xdd])) ∧
      getNextState c2state =
        some (.ok ⟨c2state.seed, c2state.hashAlgo, c2state.step - 1,
          some [0x9e, 0x87, 0x61, 0x34, 0xd9, 0x04, 0x99, 0xdd], none⟩)) :=
  ⟨⟨rfl, c2_next_state.1 demoState1 rfl⟩,
    ⟨⟨⟨by decide, Or.inl rfl, by decide⟩, by decide, rfl⟩,
      c2_next_state.2 c2state [0x9e, 0x87, 0x61, 0x34, 0xd9, 0x04, 0x99, 0xdd]
        ⟨by decide, Or.inl rfl, by decide⟩ (by decide) rfl (by decide)
        (by decide)⟩⟩

/-- C4: `response_to_bytes` tries token decoding first and falls back to
hex on any token failure; when both fail it raises the invalid-response
error with message `The response is neither a valid token or hex`; and a
response that converts to bytes but whose recomputed folded digest
differs from the expected digest makes `response_validates` return
`False` without error. -/
theorem c4_response_paths :
    (∀ (r : List Char) (bs : List Nat),
      tokensToBytes r = .ok bs → responseToBytes r = .ok bs) ∧
    (∀ (r : List Char) (e : GenError) (bs : List Nat),
      tokensToBytes r = .error e → validateHex r = .ok bs →
      responseToBytes r = .ok bs) ∧
    (∀ (r : List Char) (e : GenError) (e2 : SrvError),
      tokensToBytes r = .error e → validateHex r = .error e2 →
      responseToBytes r =
        .error (.invalidResponse
          "The response is neither a valid token or hex".toList)) ∧
    (∀ (st : OTPState) (r : List Char) (rb : List Nat) (flag : Bool)
        (d : List Nat),
      (st.hashAlgo = "md5".toList ∨ st.hashAlgo = "sha1".toList) →
      st.currentDigest = some d → responseToBytes r = .ok rb →
      foldedHash st.hashAlgo rb ≠ d →
      stateResponseValidates st r flag = .ok (false, st)) := by
  refine ⟨?_, ?_, ?_, ?_⟩
  · intro r bs h
    simp [responseToBytes, h]
  · intro r e bs h h2
    simp [responseToBytes, h, h2]
  · intro r e e2 h h2
    simp [responseToBytes, h, h2]
  · intro st r rb flag d ha hd hr hne
    have hs1 : "sha1".toList ≠ "md5".toList := by decide
    rcases ha with ha | ha
    · have hne2 : strxor ((md5 rb).take 8) ((md5 rb).drop 8) ≠ d := by
        rw [ha] at hne
        simpa [foldedHash] using hne
      simp [stateResponseValidates, hr, ha, hd, hne2]
    · have hne2 : sha1DigestFolding (sha1 rb) ≠ d := by
        rw [ha] at hne
        simpa [foldedHash, hs1] using hne
      simp [stateResponseValidates, hr, ha, hd, hne2, hs1]

/-- C4, witness: the four paths at concrete inputs — a valid token
response, a hex fallback, a doubly-invalid response, and a well-formed
but mismatching response. -/
theorem c4_response_paths_witness :
    (tokensToBytes "A A A A A A".toList = .ok [0, 0, 0, 0, 0, 0, 0, 0] ∧
      responseToBytes "A A A A A A".toList = .ok [0, 0, 0, 0, 0, 0, 0, 0]) ∧
    (tokensToBytes "9e876134d90499dd".toList = .error .notSixTokens ∧
      responseToBytes "9e876134d90499dd".toList =
        .ok [0x9e, 0x87, 0x61, 0x34, 0xd9, 0x04, 0x99, 0xdd]) ∧
    (tokensToBytes "bla".toList = .error .notSixTokens ∧
      responseToBytes "bla".toList =
        .error (.invalidResponse
          "The response is neither a valid token or hex".toList)) ∧
    (foldedHash zeroDigestState.hashAlgo
        [0x12, 0x34, 0x56, 0x78, 0x12, 0x34, 0x56, 0x78] ≠
        [0, 0, 0, 0, 0, 0, 0, 0] ∧
      stateResponseValidates zeroDigestState "0x1234567812345678".toList true =
        .ok (false, zeroDigestState)) :=
  ⟨⟨by decide,
      c4_response_paths.1 "A A A A A A".toList [0, 0, 0, 0, 0, 0, 0, 0]
        (by decide)⟩,
    ⟨by decide,
      c4_response_paths.2.1 "9e876134d90499dd".toList .notSixTokens
        [0x9e, 0x87, 0x61, 0x34, 0xd9, 0x04, 0x99, 0xdd] (by decide)
        (by decide)⟩,
    ⟨by decide,
      c4_response_paths.2.2.1 "bla".toList .notSixTokens
        (.state "The length of the hex should be 16 (representing 64 bits digest)".toList)
        (by decide) (by decide)⟩,
    ⟨by decide,
      c4_response_paths.2.2.2 zeroDigestState "0x1234567812345678".toList
        [0x12, 0x34, 0x56, 0x78, 0x12, 0x34, 0x56, 0x78] true
        [0, 0, 0, 0, 0, 0, 0, 0] (Or.inl rfl) rfl (by decide) (by decide)⟩⟩

theorem computeDigest_sub_one (algo : List Char) (pw : List Nat)
    (seed : List Char) (n : Nat) (h : 1 ≤ n) :
    computeDigest algo pw seed n =
      foldedHash algo (computeDigest algo pw seed (n - 1)) := by
  cases n with
  | zero => omega
  | succ m => simp [computeDigest]

/-- C6: the chain recurrence — for step ≥ 1 the digest is the folded hash
of the previous 8-byte chain value — and its server-side reading: a state
expecting the chain value at step `n` validates exactly a response
carrying the chain value at step `n − 1`. -/
theorem c6_chain_recurrence :
    (∀ (algo : List Char) (pw : List Nat) (seed : List Char) (n : Nat),
      1 ≤ n →
      computeDigest algo pw seed n =
        foldedHash algo (computeDigest algo pw seed (n - 1))) ∧
    (∀ (st : OTPState) (pw : List Nat) (n : Nat) (r : List Char)
        (flag : Bool),
      (st.hashAlgo = "md5".toList ∨ st.hashAlgo = "sha1".toList) →
      st.currentDigest = some (computeDigest st.hashAlgo pw st.seed n) →
      1 ≤ n →
      responseToBytes r = .ok (computeDigest st.hashAlgo pw st.seed (n - 1)) →
      ∃ st', stateResponseValidates st r flag = .ok (true, st')) := by
  constructor
  · exact computeDigest_sub_one
  · intro st pw n r flag ha hd hn hr
    obtain ⟨sd, alg, stp, cur, nh⟩ := st
    simp only at ha hd hr ⊢
    rcases ha with ha | ha <;> subst ha
    · have hfold :
          strxor ((md5 (computeDigest "md5".toList pw sd (n - 1))).take 8)
            ((md5 (computeDigest "md5".toList pw sd (n - 1))).drop 8) =
          computeDigest "md5".toList pw sd n := by
        rw [computeDigest_sub_one _ _ _ n hn]
        simp [foldedHash]
      have hcond : cur = none ∨
          some (strxor ((md5 (computeDigest "md5".toList pw sd (n - 1))).take 8)
            ((md5 (computeDigest "md5".toList pw sd (n - 1))).drop 8)) = cur :=
        Or.inr (by rw [hd]; exact congrArg some hfold)
      cases flag
      · exact ⟨⟨sd, "md5".toList, stp, cur, nh⟩, by
          simp only [stateResponseValidates, hr]
          rw [if_pos trivial, if_pos hcond]
          rfl⟩
      · exact ⟨⟨sd, "md5".toList, stp, cur,
            some (hexlify (computeDigest "md5".toList pw sd (n - 1)))⟩, by
          simp only [stateResponseValidates, hr]
          rw [if_pos trivial, if_pos hcond]
          rfl⟩
    · have hs1 : "sha1".toList ≠ "md5".toList := by decide
      have hfold :
          sha1DigestFolding (sha1 (computeDigest "sha1".toList pw sd (n - 1))) =
          computeDigest "sha1".toList pw sd n := by
        rw [computeDigest_sub_one _ _ _ n hn]
        simp [foldedHash, hs1]
      have hcond : cur = none ∨
          some (sha1DigestFolding (sha1 (computeDigest "sha1".toList pw sd (n - 1)))) = cur :=
        Or.inr (by rw [hd]; exact congrArg some hfold)
      cases flag
      · exact ⟨⟨sd, "sha1".toList, stp, cur, nh⟩, by
          simp only [stateResponseValidates, hr]
          rw [if_neg hs1, if_pos trivial, if_pos hcond]
          rfl⟩
      · exact ⟨⟨sd, "sha1".toList, stp, cur,
            some (hexlify (computeDigest "sha1".toList pw sd (n - 1)))⟩, by
          simp only [stateResponseValidates, hr]
          rw [if_neg hs1, if_pos trivial, if_pos hcond]
          rfl⟩

/-- C6, witness: the recurrence at step 1, and the concrete step-1 state
accepting the hex rendering of the step-0 chain value. -/
theorem c6_chain_recurrence_witness :
    (1 ≤ 1 ∧
      computeDigest "md5".toList pwTest "TeSt".toList 1 =
        foldedHash "md5".toList
          (computeDigest "md5".toList pwTest "TeSt".toList 0)) ∧
    ((c6state.hashAlgo = "md5".toList ∨ c6state.hashAlgo = "sha1".toList) ∧
      c6state.currentDigest =
        some (computeDigest c6state.hashAlgo pwTest c6state.seed 1) ∧
      responseToBytes "0x9e876134d90499dd".toList =
        .ok (computeDigest c6state.hashAlgo pwTest c6state.seed 0)) ∧
    (∃ st', stateResponseValidates c6state "0x9e876134d90499dd".toList true =
      .ok (true, st')) :=
  ⟨⟨le_refl 1, c6_chain_recurrence.1 "md5".toList pwTest "TeSt".toList 1 (le_refl 1)⟩,
    ⟨Or.inl rfl, rfl, by decide⟩,
    c6_chain_recurrence.2 c6state pwTest 1 "0x9e876134d90499dd".toList true
      (Or.inl rfl) rfl (le_refl 1) (by decide)⟩

theorem hexVal_toLower (c : Char) (h : (hexVal c).isSome) :
    hexVal c.toLower = hexVal c := by
  by_cases h1 : 48 ≤ c.toNat ∧ c.toNat ≤ 57
  · have hno : ¬(c.toNat ≥ 65 ∧ c.toNat ≤ 90) := by omega
    simp [Char.toLower, hno]
  · by_cases h2 : 97 ≤ c.toNat ∧ c.toNat ≤ 102
    · have hno : ¬(c.toNat ≥ 65 ∧ c.toNat ≤ 90) := by omega
      simp [Char.toLower, hno]
    · by_cases h3 : 65 ≤ c.toNat ∧ c.toNat ≤ 70
      · have hup : c.toNat ≥ 65 ∧ c.toNat ≤ 90 := by omega
        have hlow : c.toLower = Char.ofNat (c.toNat + 32) := by
          simp [Char.toLower, hup]
        have hv : hexVal c = some (c.toNat - 55) := by
          unfold hexVal
          rw [if_neg h1, if_neg h2, if_pos h3]
        have hn : c.toNat = 65 ∨ c.toNat = 66 ∨ c.toNat = 67 ∨
            c.toNat = 68 ∨ c.toNat = 69 ∨ c.toNat = 70 := by omega
        rcases hn with hn | hn | hn | hn | hn | hn <;>
          rw [hlow, hv, hn] <;> decide
      · unfold hexVal at h
        rw [if_neg h1, if_neg h2, if_neg h3] at h
        simp at h

theorem hexVal_not_ws (c : Char) (h : (hexVal c).isSome) :
    c.isWhitespace = false := by
  have hr : 48 ≤ c.toNat ∧ c.toNat ≤ 57 ∨ 97 ≤ c.toNat ∧ c.toNat ≤ 102 ∨
      65 ≤ c.toNat ∧ c.toNat ≤ 70 := by
    by_cases h1 : 48 ≤ c.toNat ∧ c.toNat ≤ 57
    · exact Or.inl h1
    · by_cases h2 : 97 ≤ c.toNat ∧ c.toNat ≤ 102
      · exact Or.inr (Or.inl h2)
      · by_cases h3 : 65 ≤ c.toNat ∧ c.toNat ≤ 70
        · exact Or.inr (Or.inr h3)
        · unfold hexVal at h
          rw [if_neg h1, if_neg h2, if_neg h3] at h
          simp at h
  simp only [Char.isWhitespace, Bool.or_eq_false_iff,
    decide_eq_false_iff_not]
  refine ⟨⟨⟨?_, ?_⟩, ?_⟩, ?_⟩ <;> intro hc <;> subst hc <;>
    revert hr <;> decide

theorem dropWhile_eq_self_of_all {p : Char → Bool} {l : List Char}
    (h : ∀ c ∈ l, p c = false) : l.dropWhile p = l := by
  cases l with
  | nil => rfl
  | cons c rest => simp [List.dropWhile, h c (by simp)]

theorem stripWs_eq_self {s : List Char}
    (h : ∀ c ∈ s, c.isWhitespace = false) : stripWs s = s := by
  unfold stripWs
  rw [dropWhile_eq_self_of_all h,
    dropWhile_eq_self_of_all (fun c hc => h c (by simpa using hc)),
    List.reverse_reverse]

theorem unhexlify_all_hex : ∀ (l : List Char),
    (∀ c ∈ l, (hexVal c).isSome) → l.length % 2 = 0 →
    unhexlify l = some (hexToBytesF l)
  | [], _, _ => rfl
  | [a], _, hl => by simp at hl
  | a :: b :: l, h, hl => by
    obtain ⟨x, hx⟩ := Option.isSome_iff_exists.mp (h a (by simp))
    obtain ⟨y, hy⟩ := Option.isSome_iff_exists.mp (h b (by simp))
    have hl2 : l.length % 2 = 0 := by
      simp only [List.length_cons] at hl
      omega
    have ih := unhexlify_all_hex l (fun c hc => h c (by simp [hc])) hl2
    simp [unhexlify, hexToBytesF, hx, hy, ih]

theorem hexToBytesF_map_toLower : ∀ (l : List Char),
    (∀ c ∈ l, (hexVal c).isSome) →
    hexToBytesF (l.map Char.toLower) = hexToBytesF l
  | [], _ => rfl
  | [a], _ => rfl
  | a :: b :: l, h => by
    have ih := hexToBytesF_map_toLower l (fun c hc => h c (by simp [hc]))
    simp only [List.map_cons, hexToBytesF,
      hexVal_toLower a (h a (by simp)), hexVal_toLower b (h b (by simp)), ih]

theorem splitWs_single : ∀ (s : List Char), s ≠ [] →
    (∀ c ∈ s, c.isWhitespace = false) → splitWs s = [s]
  | [], h, _ => absurd rfl h
  | c :: rest, _, hws => by
    have hc : c.isWhitespace = false := hws c (by simp)
    cases rest with
    | nil => simp [splitWs, hc]
    | cons d rest2 =>
      have hd : d.isWhitespace = false := hws d (by simp)
      have ih := splitWs_single (d :: rest2) (by simp)
        (fun x hx => hws x (List.mem_cons_of_mem c hx))
      rw [splitWs.eq_def]
      dsimp only
      rw [ih]
      simp [hc, hd]

/-- C9, counterexample: the prefix is *not* case-insensitive — only a
lowercase `0x` is stripped, so `0X9E876134D90499DD` fails the length
check and is rejected, both by `validate_hex` and by
`response_to_bytes`. -/
theorem c9_hex_cex :
    validateHex "0X9E876134D90499DD".toList =
      .error (.state
        "The length of the hex should be 16 (representing 64 bits digest)".toList) ∧
    responseToBytes "0X9E876134D90499DD".toList =
      .error (.invalidResponse
        "The response is neither a valid token or hex".toList) := by
  decide

/-- C9 (amended): every string of exactly 16 hex digit characters
(case-insensitive), optionally preceded by a *lowercase* `0x` prefix, is
accepted by `validate_hex` and by `response_to_bytes`, which return the
corresponding 8 bytes. -/
theorem c9_hex_accepted (ds : List Char) (hlen : ds.length = 16)
    (hhex : ∀ c ∈ ds, (hexVal c).isSome) :
    validateHex ds = .ok (hexToBytesF ds) ∧
    validateHex ('0' :: 'x' :: ds) = .ok (hexToBytesF ds) ∧
    responseToBytes ds = .ok (hexToBytesF ds) ∧
    responseToBytes ('0' :: 'x' :: ds) = .ok (hexToBytesF ds) := by
  have hnws : ∀ c ∈ ds, c.isWhitespace = false :=
    fun c hc => hexVal_not_ws c (hhex c hc)
  have hne : ds ≠ [] := by
    intro h
    rw [h] at hlen
    simp at hlen
  obtain ⟨d0, d1, rest, rfl⟩ : ∃ d0 d1 rest, ds = d0 :: d1 :: rest := by
    cases ds with
    | nil => simp at hlen
    | cons a t =>
      cases t with
      | nil => simp at hlen
      | cons b r => exact ⟨a, b, r, rfl⟩
  have hd1 : d1 ≠ 'x' := by
    intro h
    have := hhex d1 (by simp)
    rw [h] at this
    simp [hexVal] at this
  have hpre : ¬((d0 :: d1 :: rest).take 2 = "0x".toList) := by
    rw [show "0x".toList = ['0', 'x'] from rfl]
    simp [List.take]
    intro _
    exact hd1
  have hv1 : validateHex (d0 :: d1 :: rest) = .ok (hexToBytesF (d0 :: d1 :: rest)) := by
    simp only [validateHex, if_neg hpre, hlen,
      if_neg (by omega : ¬(16 : Nat) ≠ 16)]
    rw [unhexlify_all_hex _ hhex (by rw [hlen])]
  have hlow : ∀ c ∈ (d0 :: d1 :: rest).map Char.toLower, (hexVal c).isSome := by
    intro c hc
    rw [List.mem_map] at hc
    obtain ⟨a, ha, rfl⟩ := hc
    rw [hexVal_toLower a (hhex a ha)]
    exact hhex a ha
  have hr14 : rest.length = 14 := by
    simp only [List.length_cons] at hlen
    omega
  have hv2 : validateHex ('0' :: 'x' :: d0 :: d1 :: rest) =
      .ok (hexToBytesF (d0 :: d1 :: rest)) := by
    have htake : ('0' :: 'x' :: d0 :: d1 :: rest).take 2 = "0x".toList := rfl
    have hul : unhexlify ((stripWs (d0 :: d1 :: rest)).map Char.toLower) =
        some (hexToBytesF (d0 :: d1 :: rest)) := by
      rw [stripWs_eq_self hnws,
        unhexlify_all_hex _ hlow
          (by simp only [List.length_map, List.length_cons]; omega),
        hexToBytesF_map_toLower _ hhex]
    simp only [stripWs_eq_self hnws, List.map_cons] at hul
    simp [validateHex, htake, hul, stripWs_eq_self hnws, hr14]
  have hsplit1 : splitWs (d0 :: d1 :: rest) = [d0 :: d1 :: rest] :=
    splitWs_single _ hne hnws
  have htok1 : tokensToBytes (d0 :: d1 :: rest) = .error .notSixTokens := by
    simp [tokensToBytes, hsplit1]
  have hsplit2 : splitWs ('0' :: 'x' :: d0 :: d1 :: rest) =
      [('0' :: 'x' :: d0 :: d1 :: rest)] := by
    refine splitWs_single _ (by simp) ?_
    intro c hc
    simp only [List.mem_cons] at hc
    rcases hc with rfl | rfl | hc | hc | hc
    · decide
    · decide
    · exact hnws c (by simp [hc])
    · exact hnws c (by simp [hc])
    · exact hnws c (by simp [hc])
  have htok2 : tokensToBytes ('0' :: 'x' :: d0 :: d1 :: rest) =
      .error .notSixTokens := by
    simp [tokensToBytes, hsplit2]
  exact ⟨hv1, hv2,
    by simp [responseToBytes, htok1, hv1],
    by simp [responseToBytes, htok2, hv2]⟩

/-- C9, witness: the uppercase digest string `9E876134D90499DD`, bare and
with the lowercase `0x` prefix. -/
theorem c9_hex_accepted_witness :
    ("9E876134D90499DD".toList.length = 16 ∧
      ∀ c ∈ "9E876134D90499DD".toList, (hexVal c).isSome) ∧
    (validateHex "9E876134D90499DD".toList =
        .ok (hexToBytesF "9E876134D90499DD".toList) ∧
      validateHex ('0' :: 'x' :: "9E876134D90499DD".toList) =
        .ok (hexToBytesF "9E876134D90499DD".toList) ∧
      responseToBytes "9E876134D90499DD".toList =
        .ok (hexToBytesF "9E876134D90499DD".toList) ∧
      responseToBytes ('0' :: 'x' :: "9E876134D90499DD".toList) =
        .ok (hexToBytesF "9E876134D90499DD".toList)) :=
  ⟨⟨by decide, by decide⟩,
    c9_hex_accepted "9E876134D90499DD".toList (by decide) (by decide)⟩

theorem chainLtB_chain : ∀ (l : List Nat), chainLtB l = true →
    List.Chain' (· < ·) l
  | [], _ => List.chain'_nil
  | [_], _ => List.chain'_singleton _
  | a :: b :: l, h => by
    rw [chainLtB, Bool.and_eq_true, decide_eq_true_eq] at h
    exact List.chain'_cons.mpr ⟨h.1, chainLtB_chain (b :: l) h.2⟩

theorem nodup_of_chainLtB_map {α : Type} (f : α → Nat) (l : List α)
    (h : chainLtB (l.map f) = true) : l.Nodup := by
  have hp : (l.map f).Pairwise (· < ·) :=
    List.chain'_iff_pairwise.mp (chainLtB_chain _ h)
  exact List.Nodup.of_map f (hp.imp Nat.ne_of_lt)

theorem otpWordsL_nodup : otpWordsL.Nodup := by
  refine nodup_of_chainLtB_map dictKey _ ?_
  decide

theorem otpWords_parts_length : otpWords1.length = 256 ∧
    otpWords2.length = 256 ∧ otpWords3.length = 256 ∧
    otpWords4.length = 256 ∧ otpWords5.length = 256 ∧
    otpWords6.length = 256 ∧ otpWords7.length = 256 ∧
    otpWords8.length = 256 := by
  refine ⟨?_, ?_, ?_, ?_, ?_, ?_, ?_, ?_⟩ <;> decide

theorem otpWordsL_length : otpWordsL.length = 2048 := by
  have h := otpWords_parts_length
  simp only [otpWordsL, otpWords, List.length_map, List.length_append]
  omega

theorem idxFrom_get : ∀ (l : List (List Char)), l.Nodup →
    ∀ (g n : Nat) (hg : g < l.length),
    idxFrom (l.get ⟨g, hg⟩) l n = some (n + g)
  | [], _, g, n, hg => by simp at hg
  | a :: t, nd, 0, n, hg => by simp [idxFrom]
  | a :: t, nd, g + 1, n, hg => by
    rw [List.nodup_cons] at nd
    have hgt : g < t.length := by
      simp only [List.length_cons] at hg
      omega
    have hget : (a :: t).get ⟨g + 1, hg⟩ = t.get ⟨g, hgt⟩ := rfl
    have hne : a ≠ t.get ⟨g, hgt⟩ := by
      intro h
      exact nd.1 (h ▸ t.get_mem _ hgt)
    rw [hget]
    simp only [idxFrom, if_neg hne]
    rw [idxFrom_get t nd.2 g (n + 1) hgt]
    congr 1
    omega

theorem bytesToNatLE_lt : ∀ (l : List Nat), (∀ b ∈ l, b < 256) →
    bytesToNatLE l < 256 ^ l.length
  | [], _ => by simp [bytesToNatLE]
  | b :: bs, h => by
    have hb : b < 256 := h b (by simp)
    have ih := bytesToNatLE_lt bs (fun x hx => h x (by simp [hx]))
    simp only [bytesToNatLE, List.length_cons, pow_succ]
    calc b + 256 * bytesToNatLE bs < 256 * (bytesToNatLE bs + 1) := by omega
    _ ≤ 256 * 256 ^ bs.length := Nat.mul_le_mul_left _ ih
    _ = 256 ^ bs.length * 256 := Nat.mul_comm _ _

theorem natToBytesLE_bytesToNatLE : ∀ (l : List Nat), (∀ b ∈ l, b < 256) →
    natToBytesLE l.length (bytesToNatLE l) = l
  | [], _ => rfl
  | b :: bs, h => by
    have hb : b < 256 := h b (by simp)
    have ih := natToBytesLE_bytesToNatLE bs (fun x hx => h x (by simp [hx]))
    simp only [List.length_cons, natToBytesLE, bytesToNatLE]
    have h1 : (b + 256 * bytesToNatLE bs) % 256 = b := by omega
    have h2 : (b + 256 * bytesToNatLE bs) / 256 = bytesToNatLE bs := by omega
    rw [h1, h2, ih]

theorem bytesToNatBE_lt (l : List Nat) (h : ∀ b ∈ l, b < 256) :
    bytesToNatBE l < 256 ^ l.length := by
  rw [bytesToNatBE, ← List.length_reverse l]
  exact bytesToNatLE_lt l.reverse (fun b hb => h b (by simpa using hb))

theorem natToBytesBE_bytesToNatBE (l : List Nat) (h : ∀ b ∈ l, b < 256) :
    natToBytesBE l.length (bytesToNatBE l) = l := by
  rw [natToBytesBE, bytesToNatBE, ← List.length_reverse l,
    natToBytesLE_bytesToNatLE l.reverse (fun b hb => h b (by simpa using hb)),
    List.reverse_reverse]

theorem otpWordsL_upper : ∀ w ∈ otpWordsL, w.map Char.toUpper = w := by
  have h : otpWordsL.all (fun w => w.map Char.toUpper == w) = true := by
    decide
  rw [List.all_eq_true] at h
  intro w hw
  exact beq_iff_eq.mp (h w hw)

theorem otpWordsL_ok : ∀ w ∈ otpWordsL,
    w ≠ [] ∧ ∀ c ∈ w, c.isWhitespace = false := by
  have h : otpWordsL.all
      (fun w => !w.isEmpty && w.all (fun c => !c.isWhitespace)) = true := by
    decide
  rw [List.all_eq_true] at h
  intro w hw
  have h2 := h w hw
  rw [Bool.and_eq_true] at h2
  constructor
  · intro he
    rw [he] at h2
    simp at h2
  · intro c hc
    have h3 := h2.2
    rw [List.all_eq_true] at h3
    simpa using h3 c hc

theorem splitWs_ws_cons (d : Char) (l : List Char)
    (hd : d.isWhitespace = true) : splitWs (d :: l) = splitWs l := by
  rw [splitWs.eq_def]
  simp [hd]

theorem splitWs_append_word : ∀ (w s : List Char), w ≠ [] →
    (∀ c ∈ w, c.isWhitespace = false) →
    (s = [] ∨ ∃ d t, s = d :: t ∧ d.isWhitespace = true) →
    splitWs (w ++ s) = w :: splitWs s
  | [], _, hne, _, _ => absurd rfl hne
  | [c], s, _, hws, hs => by
    have hc : c.isWhitespace = false := hws c (by simp)
    rcases hs with rfl | ⟨d, t, rfl, hd⟩
    · simp [splitWs, hc]
    · rw [List.singleton_append, splitWs.eq_def]
      dsimp only
      rw [splitWs_ws_cons d t hd]
      simp [hc, hd]
  | c :: e :: w, s, _, hws, hs => by
    have hc : c.isWhitespace = false := hws c (by simp)
    have he : e.isWhitespace = false := hws e (by simp)
    have ih := splitWs_append_word (e :: w) s (by simp)
      (fun x hx => hws x (List.mem_cons_of_mem c hx)) hs
    rw [List.cons_append, splitWs.eq_def]
    dsimp only
    rw [List.cons_append] at ih ⊢
    rw [ih]
    simp [hc, he]

theorem splitWs_joinSpace : ∀ (ws : List (List Char)), ws ≠ [] →
    (∀ w ∈ ws, w ≠ [] ∧ ∀ c ∈ w, c.isWhitespace = false) →
    splitWs (joinSpace ws) = ws
  | [], hne, _ => absurd rfl hne
  | [w], _, h => by
    have hw := h w (by simp)
    simp only [joinSpace]
    exact splitWs_single w hw.1 hw.2
  | w :: v :: ws, _, h => by
    have hw := h w (by simp)
    have ih := splitWs_joinSpace (v :: ws) (by simp)
      (fun x hx => h x (List.mem_cons_of_mem w hx))
    show splitWs (w ++ ' ' :: joinSpace (v :: ws)) = w :: v :: ws
    rw [splitWs_append_word w (' ' :: joinSpace (v :: ws)) hw.1 hw.2
      (Or.inr ⟨' ', joinSpace (v :: ws), rfl, by decide⟩)]
    rw [splitWs_ws_cons ' ' _ (by decide), ih]

theorem getD_eq_get {α : Type} (l : List α) (g : Nat) (hg : g < l.length)
    (d : α) : l.getD g d = l.get ⟨g, hg⟩ := by
  simp [List.getD_eq_getElem?_getD, List.getElem?_eq_getElem hg,
    List.get_eq_getElem]

theorem tokenIndices_lt (m : Nat) : ∀ g ∈ tokenIndices m, g < 2048 := by
  intro g hg
  simp only [tokenIndices, List.mem_map] at hg
  obtain ⟨k, _, rfl⟩ := hg
  exact Nat.mod_lt _ (by norm_num)

theorem wordIndex_dict (g : Nat) (hg : g < 2048) :
    wordIndex (otpWordsL.getD g []) = some g := by
  have hg2 : g < otpWordsL.length := by rw [otpWordsL_length]; exact hg
  rw [wordIndex, getD_eq_get otpWordsL g hg2 [],
    idxFrom_get otpWordsL otpWordsL_nodup g 0 hg2]
  simp

theorem dictWord_mem (g : Nat) (hg : g < 2048) :
    otpWordsL.getD g [] ∈ otpWordsL := by
  have hg2 : g < otpWordsL.length := by rw [otpWordsL_length]; exact hg
  rw [getD_eq_get otpWordsL g hg2 []]
  exact otpWordsL.get_mem _ hg2

theorem wordIndices_dict : ∀ (gs : List Nat), (∀ g ∈ gs, g < 2048) →
    wordIndices (gs.map (fun g => otpWordsL.getD g [])) = some gs
  | [], _ => rfl
  | g :: gs, h => by
    have ih := wordIndices_dict gs (fun x hx => h x (by simp [hx]))
    simp only [List.map_cons, wordIndices, wordIndex_dict g (h g (by simp)), ih]

theorem checksum64_lt (n : Nat) : checksum64 n < 4 :=
  Nat.mod_lt _ (by norm_num)

theorem tokenIndices_eq (m : Nat) :
    tokenIndices m = [m / 2048 ^ 5 % 2048, m / 2048 ^ 4 % 2048,
      m / 2048 ^ 3 % 2048, m / 2048 ^ 2 % 2048, m / 2048 ^ 1 % 2048,
      m / 2048 ^ 0 % 2048] := rfl

theorem foldl_tokenIndices (m : Nat) (hm : m < 2 ^ 66) :
    (tokenIndices m).foldl (fun a g => 2048 * a + g) 0 = m := by
  rw [tokenIndices_eq]
  simp only [List.foldl]
  norm_num
  omega

/-- C8: decoding the six-word mnemonic produced by encoding any 8-byte
value returns exactly that value. -/
theorem c8_codec_roundtrip (bs : List Nat) (hlen : bs.length = 8)
    (hb : ∀ b ∈ bs, b < 256) :
    tokensToBytes (bytesToTokens bs) = .ok bs := by
  set n := bytesToNatBE bs with hn
  have hn64 : n < 2 ^ 64 := by
    have := bytesToNatBE_lt bs hb
    rw [hlen] at this
    calc n < 256 ^ 8 := this
    _ = 2 ^ 64 := by norm_num
  set m := n * 4 + checksum64 n with hm
  have hc4 := checksum64_lt n
  have hm66 : m < 2 ^ 66 := by
    rw [hm]
    calc n * 4 + checksum64 n < n * 4 + 4 := by omega
    _ ≤ (2 ^ 64 - 1) * 4 + 4 := by omega
    _ ≤ 2 ^ 66 := by norm_num
  have hmdiv : m / 4 = n := by omega
  have hmmod : m % 4 = checksum64 n := by omega
  set gs := tokenIndices m with hgs
  have hglt : ∀ g ∈ gs, g < 2048 := tokenIndices_lt m
  set ws := gs.map (fun g => otpWordsL.getD g []) with hws
  have hwmem : ∀ w ∈ ws, w ∈ otpWordsL := by
    intro w hw
    rw [hws] at hw
    simp only [List.mem_map] at hw
    obtain ⟨g, hg, rfl⟩ := hw
    exact dictWord_mem g (hglt g hg)
  have hwok : ∀ w ∈ ws, w ≠ [] ∧ ∀ c ∈ w, c.isWhitespace = false :=
    fun w hw => otpWordsL_ok w (hwmem w hw)
  have hlen6 : ws.length = 6 := by
    rw [hws, List.length_map, hgs, tokenIndices_eq]
    rfl
  have hwsne : ws ≠ [] := by
    intro h
    rw [h] at hlen6
    simp at hlen6
  have hsplit : splitWs (joinSpace ws) = ws :=
    splitWs_joinSpace ws hwsne hwok
  have hupper : ws.map (List.map Char.toUpper) = ws := by
    conv_rhs => rw [← List.map_id ws]
    apply List.map_congr_left
    intro w hw
    exact otpWordsL_upper w (hwmem w hw)
  have hbt : bytesToTokens bs = joinSpace ws := by
    rw [bytesToTokens]
  have hwi : wordIndices ws = some gs := wordIndices_dict gs hglt
  rw [hbt]
  simp only [tokensToBytes, hsplit, hupper, hlen6, if_pos rfl, hwi]
  rw [foldl_tokenIndices m hm66, hmdiv, hmmod, if_pos rfl]
  have : natToBytesBE 8 n = bs := by
    rw [hn, ← hlen]
    exact natToBytesBE_bytesToNatBE bs hb
  rw [this]
  exact if_pos trivial

/-- C8, witness: the all-zero 8-byte value round-trips through the codec
(its mnemonic is `A A A A A A`). -/
theorem c8_codec_roundtrip_witness :
    ([0, 0, 0, 0, 0, 0, 0, 0] : List Nat).length = 8 ∧
    tokensToBytes (bytesToTokens [0, 0, 0, 0, 0, 0, 0, 0]) =
      .ok [0, 0, 0, 0, 0, 0, 0, 0] :=
  ⟨by decide,
    c8_codec_roundtrip [0, 0, 0, 0, 0, 0, 0, 0] (by decide) (by decide)⟩

theorem mdChain0 :
    computeDigest "md5".toList pwTest "TeSt".toList 0 = [0x9e, 0x87, 0x61, 0x34, 0xd9, 0x04, 0x99, 0xdd] := by
  decide

theorem mdChain1 :
    computeDigest "md5".toList pwTest "TeSt".toList 1 = [0x79, 0x65, 0xe0, 0x54, 0x36, 0xf5, 0x02, 0x9f] := by
  have h : computeDigest "md5".toList pwTest "TeSt".toList 1 =
      foldedHash "md5".toList
        (computeDigest "md5".toList pwTest "TeSt".toList 0) := rfl
  rw [h, mdChain0]
  decide

theorem mdChain2 :
    computeDigest "md5".toList pwTest "TeSt".toList 2 = [0x40, 0x49, 0xf8, 0xb1, 0x61, 0x66, 0x9b, 0x7b] := by
  have h : computeDigest "md5".toList pwTest "TeSt".toList 2 =
      foldedHash "md5".toList
        (computeDigest "md5".toList pwTest "TeSt".toList 1) := rfl
  rw [h, mdChain1]
  decide

theorem mdChain3 :
    computeDigest "md5".toList pwTest "TeSt".toList 3 = [0x53, 0x3f, 0xbe, 0x6a, 0x61, 0x49, 0xf5, 0x36] := by
  have h : computeDigest "md5".toList pwTest "TeSt".toList 3 =
      foldedHash "md5".toList
        (computeDigest "md5".toList pwTest "TeSt".toList 2) := rfl
  rw [h, mdChain2]
  decide

theorem mdChain4 :
    computeDigest "md5".toList pwTest "TeSt".toList 4 = [0x3b, 0x6f, 0x42, 0x88, 0x50, 0xaa, 0xc5, 0x05] := by
  have h : computeDigest "md5".toList pwTest "TeSt".toList 4 =
      foldedHash "md5".toList
        (computeDigest "md5".toList pwTest "TeSt".toList 3) := rfl
  rw [h, mdChain3]
  decide

theorem mdChain5 :
    computeDigest "md5".toList pwTest "TeSt".toList 5 = [0x2c, 0xa9, 0x31, 0xbd, 0xdd, 0x56, 0x08, 0xb1] := by
  have h : computeDigest "md5".toList pwTest "TeSt".toList 5 =
      foldedHash "md5".toList
        (computeDigest "md5".toList pwTest "TeSt".toList 4) := rfl
  rw [h, mdChain4]
  decide

theorem mdChain6 :
    computeDigest "md5".toList pwTest "TeSt".toList 6 = [0x54, 0x3f, 0xa0, 0x14, 0x5c, 0xf8, 0x25, 0xc5] := by
  have h : computeDigest "md5".toList pwTest "TeSt".toList 6 =
      foldedHash "md5".toList
        (computeDigest "md5".toList pwTest "TeSt".toList 5) := rfl
  rw [h, mdChain5]
  decide

theorem mdChain7 :
    computeDigest "md5".toList pwTest "TeSt".toList 7 = [0x60, 0x14, 0xd6, 0xbd, 0xd5, 0x76, 0x17, 0xce] := by
  have h : computeDigest "md5".toList pwTest "TeSt".toList 7 =
      foldedHash "md5".toList
        (computeDigest "md5".toList pwTest "TeSt".toList 6) := rfl
  rw [h, mdChain6]
  decide

theorem mdChain8 :
    computeDigest "md5".toList pwTest "TeSt".toList 8 = [0xb9, 0x74, 0x6a, 0x4a, 0x93, 0xc0, 0x9f, 0xe2] := by
  have h : computeDigest "md5".toList pwTest "TeSt".toList 8 =
      foldedHash "md5".toList
        (computeDigest "md5".toList pwTest "TeSt".toList 7) := rfl
  rw [h, mdChain7]
  decide

theorem mdChain9 :
    computeDigest "md5".toList pwTest "TeSt".toList 9 = [0x8d, 0xa6, 0x8e, 0x3a, 0x51, 0x99, 0x42, 0xe1] := by
  have h : computeDigest "md5".toList pwTest "TeSt".toList 9 =
      foldedHash "md5".toList
        (computeDigest "md5".toList pwTest "TeSt".toList 8) := rfl
  rw [h, mdChain8]
  decide

theorem mdChain10 :
    computeDigest "md5".toList pwTest "TeSt".toList 10 = [0x10, 0x6a, 0x61, 0x17, 0xfd, 0xaf, 0x24, 0x8b] := by
  have h : computeDigest "md5".toList pwTest "TeSt".toList 10 =
      foldedHash "md5".toList
        (computeDigest "md5".toList pwTest "TeSt".toList 9) := rfl
  rw [h, mdChain9]
  decide

theorem mdChain11 :
    computeDigest "md5".toList pwTest "TeSt".toList 11 = [0x2b, 0x70, 0xf7, 0x91, 0x21, 0xc7, 0x7b, 0xfd] := by
  have h : computeDigest "md5".toList pwTest "TeSt".toList 11 =
      foldedHash "md5".toList
        (computeDigest "md5".toList pwTest "TeSt".toList 10) := rfl
  rw [h, mdChain10]
  decide

theorem mdChain12 :
    computeDigest "md5".toList pwTest "TeSt".toList 12 = [0x50, 0x5d, 0x73, 0x05, 0x5b, 0x6d, 0x2d, 0xd0] := by
  have h : computeDigest "md5".toList pwTest "TeSt".toList 12 =
      foldedHash "md5".toList
        (computeDigest "md5".toList pwTest "TeSt".toList 11) := rfl
  rw [h, mdChain11]
  decide

theorem mdChain13 :
    computeDigest "md5".toList pwTest "TeSt".toList 13 = [0x0a, 0x74, 0xa6, 0xcd, 0x1c, 0xf8, 0xca, 0x60] := by
  have h : computeDigest "md5".toList pwTest "TeSt".toList 13 =
      foldedHash "md5".toList
        (computeDigest "md5".toList pwTest "TeSt".toList 12) := rfl
  rw [h, mdChain12]
  decide

theorem mdChain14 :
    computeDigest "md5".toList pwTest "TeSt".toList 14 = [0x82, 0xf3, 0x5e, 0x1d, 0x7e, 0x9c, 0x59, 0x2f] := by
  have h : computeDigest "md5".toList pwTest "TeSt".toList 14 =
      foldedHash "md5".toList
        (computeDigest "md5".toList pwTest "TeSt".toList 13) := rfl
  rw [h, mdChain13]
  decide

theorem mdChain15 :
    computeDigest "md5".toList pwTest "TeSt".toList 15 = [0x48, 0x6b, 0xda, 0x78, 0x7c, 0xda, 0x9d, 0xc8] := by
  have h : computeDigest "md5".toList pwTest "TeSt".toList 15 =
      foldedHash "md5".toList
        (computeDigest "md5".toList pwTest "TeSt".toList 14) := rfl
  rw [h, mdChain14]
  decide

theorem mdChain16 :
    computeDigest "md5".toList pwTest "TeSt".toList 16 = [0x6f, 0x90, 0xbd, 0xca, 0xfa, 0x38, 0x2b, 0x30] := by
  have h : computeDigest "md5".toList pwTest "TeSt".toList 16 =
      foldedHash "md5".toList
        (computeDigest "md5".toList pwTest "TeSt".toList 15) := rfl
  rw [h, mdChain15]
  decide

theorem mdChain17 :
    computeDigest "md5".toList pwTest "TeSt".toList 17 = [0xf4, 0x69, 0x47, 0x61, 0xb1, 0xa1, 0x57, 0x78] := by
  have h : computeDigest "md5".toList pwTest "TeSt".toList 17 =
      foldedHash "md5".toList
        (computeDigest "md5".toList pwTest "TeSt".toList 16) := rfl
  rw [h, mdChain16]
  decide

theorem mdChain18 :
    computeDigest "md5".toList pwTest "TeSt".toList 18 = [0x7a, 0x98, 0x86, 0x01, 0xff, 0xa2, 0xdf, 0x92] := by
  have h : computeDigest "md5".toList pwTest "TeSt".toList 18 =
      foldedHash "md5".toList
        (computeDigest "md5".toList pwTest "TeSt".toList 17) := rfl
  rw [h, mdChain17]
  decide

theorem mdChain19 :
    computeDigest "md5".toList pwTest "TeSt".toList 19 = [0x25, 0x5c, 0x19, 0x12, 0x35, 0xd7, 0x1b, 0xd0] := by
  have h : computeDigest "md5".toList pwTest "TeSt".toList 19 =
      foldedHash "md5".toList
        (computeDigest "md5".toList pwTest "TeSt".toList 18) := rfl
  rw [h, mdChain18]
  decide

theorem mdChain20 :
    computeDigest "md5".toList pwTest "TeSt".toList 20 = [0xbc, 0xa1, 0x5c, 0x01, 0x04, 0xcd, 0xc8, 0xce] := by
  have h : computeDigest "md5".toList pwTest "TeSt".toList 20 =
      foldedHash "md5".toList
        (computeDigest "md5".toList pwTest "TeSt".toList 19) := rfl
  rw [h, mdChain19]
  decide

theorem mdChain21 :
    computeDigest "md5".toList pwTest "TeSt".toList 21 = [0xd8, 0x62, 0x70, 0xf8, 0xc8, 0xfb, 0x07, 0x7f] := by
  have h : computeDigest "md5".toList pwTest "TeSt".toList 21 =
      foldedHash "md5".toList
        (computeDigest "md5".toList pwTest "TeSt".toList 20) := rfl
  rw [h, mdChain20]
  decide

theorem mdChain22 :
    computeDigest "md5".toList pwTest "TeSt".toList 22 = [0xbd, 0xd3, 0xf9, 0xc4, 0xff, 0x1f, 0x7d, 0x94] := by
  have h : computeDigest "md5".toList pwTest "TeSt".toList 22 =
      foldedHash "md5".toList
        (computeDigest "md5".toList pwTest "TeSt".toList 21) := rfl
  rw [h, mdChain21]
  decide

theorem mdChain23 :
    computeDigest "md5".toList pwTest "TeSt".toList 23 = [0x8d, 0xde, 0xb9, 0x73, 0xed, 0xb0, 0x54, 0x85] := by
  have h : computeDigest "md5".toList pwTest "TeSt".toList 23 =
      foldedHash "md5".toList
        (computeDigest "md5".toList pwTest "TeSt".toList 22) := rfl
  rw [h, mdChain22]
  decide

theorem mdChain24 :
    computeDigest "md5".toList pwTest "TeSt".toList 24 = [0x0f, 0x65, 0xdb, 0x26, 0x46, 0x37, 0x76, 0x35] := by
  have h : computeDigest "md5".toList pwTest "TeSt".toList 24 =
      foldedHash "md5".toList
        (computeDigest "md5".toList pwTest "TeSt".toList 23) := rfl
  rw [h, mdChain23]
  decide

theorem mdChain25 :
    computeDigest "md5".toList pwTest "TeSt".toList 25 = [0x5b, 0x3b, 0xb9, 0x70, 0x59, 0xbb, 0x42, 0xf7] := by
  have h : computeDigest "md5".toList pwTest "TeSt".toList 25 =
      foldedHash "md5".toList
        (computeDigest "md5".toList pwTest "TeSt".toList 24) := rfl
  rw [h, mdChain24]
  decide

theorem mdChain26 :
    computeDigest "md5".toList pwTest "TeSt".toList 26 = [0x63, 0xa3, 0xfc, 0x77, 0xea, 0xcf, 0xb1, 0x8b] := by
  have h : computeDigest "md5".toList pwTest "TeSt".toList 26 =
      foldedHash "md5".toList
        (computeDigest "md5".toList pwTest "TeSt".toList 25) := rfl
  rw [h, mdChain25]
  decide

theorem mdChain27 :
    computeDigest "md5".toList pwTest "TeSt".toList 27 = [0x8c, 0x2c, 0x2c, 0x0e, 0xfe, 0xdb, 0x5a, 0xbf] := by
  have h : computeDigest "md5".toList pwTest "TeSt".toList 27 =
      foldedHash "md5".toList
        (computeDigest "md5".toList pwTest "TeSt".toList 26) := rfl
  rw [h, mdChain26]
  decide

theorem mdChain28 :
    computeDigest "md5".toList pwTest "TeSt".toList 28 = [0xdf, 0x37, 0xe3, 0x53, 0x06, 0xec, 0x04, 0x18] := by
  have h : computeDigest "md5".toList pwTest "TeSt".toList 28 =
      foldedHash "md5".toList
        (computeDigest "md5".toList pwTest "TeSt".toList 27) := rfl
  rw [h, mdChain27]
  decide

theorem mdChain29 :
    computeDigest "md5".toList pwTest "TeSt".toList 29 = [0xfe, 0xc6, 0x3e, 0xc3, 0x94, 0xf9, 0x5a, 0x1a] := by
  have h : computeDigest "md5".toList pwTest "TeSt".toList 29 =
      foldedHash "md5".toList
        (computeDigest "md5".toList pwTest "TeSt".toList 28) := rfl
  rw [h, mdChain28]
  decide

theorem mdChain30 :
    computeDigest "md5".toList pwTest "TeSt".toList 30 = [0xdc, 0x95, 0x98, 0x79, 0xb9, 0x24, 0x93, 0xd5] := by
  have h : computeDigest "md5".toList pwTest "TeSt".toList 30 =
      foldedHash "md5".toList
        (computeDigest "md5".toList pwTest "TeSt".toList 29) := rfl
  rw [h, mdChain29]
  decide

theorem mdChain31 :
    computeDigest "md5".toList pwTest "TeSt".toList 31 = [0x77, 0xf9, 0x39, 0x52, 0x62, 0x8d, 0x62, 0x83] := by
  have h : computeDigest "md5".toList pwTest "TeSt".toList 31 =
      foldedHash "md5".toList
        (computeDigest "md5".toList pwTest "TeSt".toList 30) := rfl
  rw [h, mdChain30]
  decide

theorem mdChain32 :
    computeDigest "md5".toList pwTest "TeSt".toList 32 = [0x9a, 0xa0, 0xa4, 0x01, 0x0b, 0xee, 0xee, 0x02] := by
  have h : computeDigest "md5".toList pwTest "TeSt".toList 32 =
      foldedHash "md5".toList
        (computeDigest "md5".toList pwTest "TeSt".toList 31) := rfl
  rw [h, mdChain31]
  decide

theorem mdChain33 :
    computeDigest "md5".toList pwTest "TeSt".toList 33 = [0xe7, 0x65, 0x11, 0xe1, 0x40, 0xc4, 0xb3, 0x9d] := by
  have h : computeDigest "md5".toList pwTest "TeSt".toList 33 =
      foldedHash "md5".toList
        (computeDigest "md5".toList pwTest "TeSt".toList 32) := rfl
  rw [h, mdChain32]
  decide

theorem mdChain34 :
    computeDigest "md5".toList pwTest "TeSt".toList 34 = [0xcf, 0x1d, 0x97, 0xad, 0x02, 0xe2, 0xee, 0xf1] := by
  have h : computeDigest "md5".toList pwTest "TeSt".toList 34 =
      foldedHash "md5".toList
        (computeDigest "md5".toList pwTest "TeSt".toList 33) := rfl
  rw [h, mdChain33]
  decide

theorem mdChain35 :
    computeDigest "md5".toList pwTest "TeSt".toList 35 = [0x75, 0xae, 0x41, 0x37, 0x37, 0xb2, 0x50, 0x7b] := by
  have h : computeDigest "md5".toList pwTest "TeSt".toList 35 =
      foldedHash "md5".toList
        (computeDigest "md5".toList pwTest "TeSt".toList 34) := rfl
  rw [h, mdChain34]
  decide

theorem mdChain36 :
    computeDigest "md5".toList pwTest "TeSt".toList 36 = [0xbb, 0xf4, 0xcc, 0xb4, 0xa8, 0x4a, 0x4c, 0xd3] := by
  have h : computeDigest "md5".toList pwTest "TeSt".toList 36 =
      foldedHash "md5".toList
        (computeDigest "md5".toList pwTest "TeSt".toList 35) := rfl
  rw [h, mdChain35]
  decide

theorem mdChain37 :
    computeDigest "md5".toList pwTest "TeSt".toList 37 = [0x31, 0xa4, 0xa1, 0x92, 0x1c, 0x6f, 0xfd, 0x5d] := by
  have h : computeDigest "md5".toList pwTest "TeSt".toList 37 =
      foldedHash "md5".toList
        (computeDigest "md5".toList pwTest "TeSt".toList 36) := rfl
  rw [h, mdChain36]
  decide

theorem mdChain38 :
    computeDigest "md5".toList pwTest "TeSt".toList 38 = [0x00, 0x2e, 0x98, 0xd4, 0xf9, 0x57, 0x0f, 0x98] := by
  have h : computeDigest "md5".toList pwTest "TeSt".toList 38 =
      foldedHash "md5".toList
        (computeDigest "md5".toList pwTest "TeSt".toList 37) := rfl
  rw [h, mdChain37]
  decide

theorem mdChain39 :
    computeDigest "md5".toList pwTest "TeSt".toList 39 = [0x0c, 0x69, 0xe3, 0x7c, 0xf1, 0x7b, 0x09, 0xb0] := by
  have h : computeDigest "md5".toList pwTest "TeSt".toList 39 =
      foldedHash "md5".toList
        (computeDigest "md5".toList pwTest "TeSt".toList 38) := rfl
  rw [h, mdChain38]
  decide

theorem mdChain40 :
    computeDigest "md5".toList pwTest "TeSt".toList 40 = [0x91, 0x68, 0xef, 0x69, 0x8f, 0xa9, 0xa5, 0x21] := by
  have h : computeDigest "md5".toList pwTest "TeSt".toList 40 =
      foldedHash "md5".toList
        (computeDigest "md5".toList pwTest "TeSt".toList 39) := rfl
  rw [h, mdChain39]
  decide

theorem mdChain41 :
    computeDigest "md5".toList pwTest "TeSt".toList 41 = [0x62, 0xb6, 0xad, 0xee, 0x5a, 0x8c, 0x85, 0x8d] := by
  have h : computeDigest "md5".toList pwTest "TeSt".toList 41 =
      foldedHash "md5".toList
        (computeDigest "md5".toList pwTest "TeSt".toList 40) := rfl
  rw [h, mdChain40]
  decide

theorem mdChain42 :
    computeDigest "md5".toList pwTest "TeSt".toList 42 = [0xd6, 0x70, 0x92, 0xf7, 0xc5, 0xd7, 0xfa, 0xd9] := by
  have h : computeDigest "md5".toList pwTest "TeSt".toList 42 =
      foldedHash "md5".toList
        (computeDigest "md5".toList pwTest "TeSt".toList 41) := rfl
  rw [h, mdChain41]
  decide

theorem mdChain43 :
    computeDigest "md5".toList pwTest "TeSt".toList 43 = [0xd4, 0x5a, 0x10, 0xa7, 0xcd, 0x7e, 0xa3, 0x40] := by
  have h : computeDigest "md5".toList pwTest "TeSt".toList 43 =
      foldedHash "md5".toList
        (computeDigest "md5".toList pwTest "TeSt".toList 42) := rfl
  rw [h, mdChain42]
  decide

theorem mdChain44 :
    computeDigest "md5".toList pwTest "TeSt".toList 44 = [0x28, 0x36, 0xbc, 0x00, 0x3f, 0x46, 0xe2, 0xb1] := by
  have h : computeDigest "md5".toList pwTest "TeSt".toList 44 =
      foldedHash "md5".toList
        (computeDigest "md5".toList pwTest "TeSt".toList 43) := rfl
  rw [h, mdChain43]
  decide

theorem mdChain45 :
    computeDigest "md5".toList pwTest "TeSt".toList 45 = [0xec, 0x39, 0x3d, 0x6a, 0xbd, 0xaf, 0xc5, 0xee] := by
  have h : computeDigest "md5".toList pwTest "TeSt".toList 45 =
      foldedHash "md5".toList
        (computeDigest "md5".toList pwTest "TeSt".toList 44) := rfl
  rw [h, mdChain44]
  decide

theorem mdChain46 :
    computeDigest "md5".toList pwTest "TeSt".toList 46 = [0xcb, 0x86, 0xdc, 0x9e, 0x65, 0x73, 0x0a, 0x91] := by
  have h : computeDigest "md5".toList pwTest "TeSt".toList 46 =
      foldedHash "md5".toList
        (computeDigest "md5".toList pwTest "TeSt".toList 45) := rfl
  rw [h, mdChain45]
  decide

theorem mdChain47 :
    computeDigest "md5".toList pwTest "TeSt".toList 47 = [0xf9, 0x90, 0xcd, 0xa3, 0x61, 0x0c, 0xf0, 0x2f] := by
  have h : computeDigest "md5".toList pwTest "TeSt".toList 47 =
      foldedHash "md5".toList
        (computeDigest "md5".toList pwTest "TeSt".toList 46) := rfl
  rw [h, mdChain46]
  decide

theorem mdChain48 :
    computeDigest "md5".toList pwTest "TeSt".toList 48 = [0xc8, 0xa1, 0x97, 0x53, 0x72, 0x5a, 0x77, 0x20] := by
  have h : computeDigest "md5".toList pwTest "TeSt".toList 48 =
      foldedHash "md5".toList
        (computeDigest "md5".toList pwTest "TeSt".toList 47) := rfl
  rw [h, mdChain47]
  decide

theorem mdChain49 :
    computeDigest "md5".toList pwTest "TeSt".toList 49 = [0x46, 0x39, 0x2e, 0xe4, 0xfa, 0xf1, 0x79, 0xd5] := by
  have h : computeDigest "md5".toList pwTest "TeSt".toList 49 =
      foldedHash "md5".toList
        (computeDigest "md5".toList pwTest "TeSt".toList 48) := rfl
  rw [h, mdChain48]
  decide

theorem mdChain50 :
    computeDigest "md5".toList pwTest "TeSt".toList 50 = [0xfd, 0x58, 0x00, 0xea, 0x2c, 0x94, 0x3c, 0x64] := by
  have h : computeDigest "md5".toList pwTest "TeSt".toList 50 =
      foldedHash "md5".toList
        (computeDigest "md5".toList pwTest "TeSt".toList 49) := rfl
  rw [h, mdChain49]
  decide

theorem mdChain51 :
    computeDigest "md5".toList pwTest "TeSt".toList 51 = [0x31, 0xe9, 0xa7, 0xfd, 0xcd, 0xbe, 0xfa, 0xb1] := by
  have h : computeDigest "md5".toList pwTest "TeSt".toList 51 =
      foldedHash "md5".toList
        (computeDigest "md5".toList pwTest "TeSt".toList 50) := rfl
  rw [h, mdChain50]
  decide

theorem mdChain52 :
    computeDigest "md5".toList pwTest "TeSt".toList 52 = [0xad, 0xa9, 0xb4, 0x59, 0xef, 0x2b, 0xf7, 0x4a] := by
  have h : computeDigest "md5".toList pwTest "TeSt".toList 52 =
      foldedHash "md5".toList
        (computeDigest "md5".toList pwTest "TeSt".toList 51) := rfl
  rw [h, mdChain51]
  decide

theorem mdChain53 :
    computeDigest "md5".toList pwTest "TeSt".toList 53 = [0xe7, 0xf6, 0x4b, 0x93, 0x4b, 0xd5, 0x93, 0x42] := by
  have h : computeDigest "md5".toList pwTest "TeSt".toList 53 =
      foldedHash "md5".toList
        (computeDigest "md5".toList pwTest "TeSt".toList 52) := rfl
  rw [h, mdChain52]
  decide

theorem mdChain54 :
    computeDigest "md5".toList pwTest "TeSt".toList 54 = [0x24, 0x60, 0xee, 0x3a, 0x2e, 0x9c, 0x81, 0x12] := by
  have h : computeDigest "md5".toList pwTest "TeSt".toList 54 =
      foldedHash "md5".toList
        (computeDigest "md5".toList pwTest "TeSt".toList 53) := rfl
  rw [h, mdChain53]
  decide

theorem mdChain55 :
    computeDigest "md5".toList pwTest "TeSt".toList 55 = [0xf0, 0x01, 0x5f, 0x83, 0xa1, 0xdf, 0x98, 0x08] := by
  have h : computeDigest "md5".toList pwTest "TeSt".toList 55 =
      foldedHash "md5".toList
        (computeDigest "md5".toList pwTest "TeSt".toList 54) := rfl
  rw [h, mdChain54]
  decide

theorem mdChain56 :
    computeDigest "md5".toList pwTest "TeSt".toList 56 = [0x3f, 0xaf, 0xf1, 0x57, 0xd9, 0xf3, 0xec, 0x2b] := by
  have h : computeDigest "md5".toList pwTest "TeSt".toList 56 =
      foldedHash "md5".toList
        (computeDigest "md5".toList pwTest "TeSt".toList 55) := rfl
  rw [h, mdChain55]
  decide

theorem mdChain57 :
    computeDigest "md5".toList pwTest "TeSt".toList 57 = [0xb6, 0x5d, 0xbc, 0xe3, 0x1e, 0x55, 0xde, 0x9d] := by
  have h : computeDigest "md5".toList pwTest "TeSt".toList 57 =
      foldedHash "md5".toList
        (computeDigest "md5".toList pwTest "TeSt".toList 56) := rfl
  rw [h, mdChain56]
  decide

theorem mdChain58 :
    computeDigest "md5".toList pwTest "TeSt".toList 58 = [0xb8, 0xab, 0x89, 0xb2, 0x1f, 0x50, 0x5c, 0x54] := by
  have h : computeDigest "md5".toList pwTest "TeSt".toList 58 =
      foldedHash "md5".toList
        (computeDigest "md5".toList pwTest "TeSt".toList 57) := rfl
  rw [h, mdChain57]
  decide

theorem mdChain59 :
    computeDigest "md5".toList pwTest "TeSt".toList 59 = [0x36, 0xb2, 0x79, 0x8b, 0xbd, 0xb8, 0x19, 0x1b] := by
  have h : computeDigest "md5".toList pwTest "TeSt".toList 59 =
      foldedHash "md5".toList
        (computeDigest "md5".toList pwTest "TeSt".toList 58) := rfl
  rw [h, mdChain58]
  decide

theorem mdChain60 :
    computeDigest "md5".toList pwTest "TeSt".toList 60 = [0xbe, 0x43, 0x15, 0x92, 0xb1, 0x4e, 0x45, 0xda] := by
  have h : computeDigest "md5".toList pwTest "TeSt".toList 60 =
      foldedHash "md5".toList
        (computeDigest "md5".toList pwTest "TeSt".toList 59) := rfl
  rw [h, mdChain59]
  decide

theorem mdChain61 :
    computeDigest "md5".toList pwTest "TeSt".toList 61 = [0x35, 0xca, 0xe5, 0x6d, 0xbb, 0xb3, 0x23, 0x72] := by
  have h : computeDigest "md5".toList pwTest "TeSt".toList 61 =
      foldedHash "md5".toList
        (computeDigest "md5".toList pwTest "TeSt".toList 60) := rfl
  rw [h, mdChain60]
  decide

theorem mdChain62 :
    computeDigest "md5".toList pwTest "TeSt".toList 62 = [0x5f, 0x51, 0x78, 0x30, 0x7f, 0xe5, 0xd8, 0x48] := by
  have h : computeDigest "md5".toList pwTest "TeSt".toList 62 =
      foldedHash "md5".toList
        (computeDigest "md5".toList pwTest "TeSt".toList 61) := rfl
  rw [h, mdChain61]
  decide

theorem mdChain63 :
    computeDigest "md5".toList pwTest "TeSt".toList 63 = [0xd3, 0x46, 0xcd, 0xc6, 0x50, 0x7d, 0x65, 0x86] := by
  have h : computeDigest "md5".toList pwTest "TeSt".toList 63 =
      foldedHash "md5".toList
        (computeDigest "md5".toList pwTest "TeSt".toList 62) := rfl
  rw [h, mdChain62]
  decide

theorem mdChain64 :
    computeDigest "md5".toList pwTest "TeSt".toList 64 = [0x4c, 0x20, 0x29, 0xb4, 0xa3, 0x19, 0x1a, 0xcf] := by
  have h : computeDigest "md5".toList pwTest "TeSt".toList 64 =
      foldedHash "md5".toList
        (computeDigest "md5".toList pwTest "TeSt".toList 63) := rfl
  rw [h, mdChain63]
  decide

theorem mdChain65 :
    computeDigest "md5".toList pwTest "TeSt".toList 65 = [0x17, 0x8b, 0xd8, 0x1d, 0x47, 0x21, 0xf3, 0xfd] := by
  have h : computeDigest "md5".toList pwTest "TeSt".toList 65 =
      foldedHash "md5".toList
        (computeDigest "md5".toList pwTest "TeSt".toList 64) := rfl
  rw [h, mdChain64]
  decide

theorem mdChain66 :
    computeDigest "md5".toList pwTest "TeSt".toList 66 = [0x55, 0xc7, 0x67, 0xa7, 0x65, 0xe1, 0x05, 0x38] := by
  have h : computeDigest "md5".toList pwTest "TeSt".toList 66 =
      foldedHash "md5".toList
        (computeDigest "md5".toList pwTest "TeSt".toList 65) := rfl
  rw [h, mdChain65]
  decide

theorem mdChain67 :
    computeDigest "md5".toList pwTest "TeSt".toList 67 = [0xef, 0x9b, 0x00, 0xf6, 0xec, 0x65, 0xf5, 0x7a] := by
  have h : computeDigest "md5".toList pwTest "TeSt".toList 67 =
      foldedHash "md5".toList
        (computeDigest "md5".toList pwTest "TeSt".toList 66) := rfl
  rw [h, mdChain66]
  decide

theorem mdChain68 :
    computeDigest "md5".toList pwTest "TeSt".toList 68 = [0x24, 0x87, 0xcd, 0x03, 0x98, 0x59, 0x84, 0x2b] := by
  have h : computeDigest "md5".toList pwTest "TeSt".toList 68 =
      foldedHash "md5".toList
        (computeDigest "md5".toList pwTest "TeSt".toList 67) := rfl
  rw [h, mdChain67]
  decide

theorem mdChain69 :
    computeDigest "md5".toList pwTest "TeSt".toList 69 = [0x3d, 0x57, 0x81, 0x02, 0xfc, 0x21, 0xb5, 0xa2] := by
  have h : computeDigest "md5".toList pwTest "TeSt".toList 69 =
      foldedHash "md5".toList
        (computeDigest "md5".toList pwTest "TeSt".toList 68) := rfl
  rw [h, mdChain68]
  decide

theorem mdChain70 :
    computeDigest "md5".toList pwTest "TeSt".toList 70 = [0x1a, 0x09, 0x2a, 0xcd, 0x77, 0x87, 0x39, 0x56] := by
  have h : computeDigest "md5".toList pwTest "TeSt".toList 70 =
      foldedHash "md5".toList
        (computeDigest "md5".toList pwTest "TeSt".toList 69) := rfl
  rw [h, mdChain69]
  decide

theorem mdChain71 :
    computeDigest "md5".toList pwTest "TeSt".toList 71 = [0xe7, 0x39, 0x89, 0xc5, 0x31, 0x87, 0xcb, 0xd4] := by
  have h : computeDigest "md5".toList pwTest "TeSt".toList 71 =
      foldedHash "md5".toList
        (computeDigest "md5".toList pwTest "TeSt".toList 70) := rfl
  rw [h, mdChain70]
  decide

theorem mdChain72 :
    computeDigest "md5".toList pwTest "TeSt".toList 72 = [0x2f, 0x75, 0x2d, 0x44, 0x18, 0xc7, 0x97, 0xef] := by
  have h : computeDigest "md5".toList pwTest "TeSt".toList 72 =
      foldedHash "md5".toList
        (computeDigest "md5".toList pwTest "TeSt".toList 71) := rfl
  rw [h, mdChain71]
  decide

theorem mdChain73 :
    computeDigest "md5".toList pwTest "TeSt".toList 73 = [0xc2, 0xba, 0xf8, 0x00, 0xf7, 0xd3, 0xc2, 0x5e] := by
  have h : computeDigest "md5".toList pwTest "TeSt".toList 73 =
      foldedHash "md5".toList
        (computeDigest "md5".toList pwTest "TeSt".toList 72) := rfl
  rw [h, mdChain72]
  decide

theorem mdChain74 :
    computeDigest "md5".toList pwTest "TeSt".toList 74 = [0x84, 0x3c, 0xe4, 0x03, 0x1c, 0x6a, 0x7d, 0xec] := by
  have h : computeDigest "md5".toList pwTest "TeSt".toList 74 =
      foldedHash "md5".toList
        (computeDigest "md5".toList pwTest "TeSt".toList 73) := rfl
  rw [h, mdChain73]
  decide

theorem mdChain75 :
    computeDigest "md5".toList pwTest "TeSt".toList 75 = [0xd8, 0x9e, 0xa6, 0x89, 0x1d, 0x7b, 0x06, 0xd8] := by
  have h : computeDigest "md5".toList pwTest "TeSt".toList 75 =
      foldedHash "md5".toList
        (computeDigest "md5".toList pwTest "TeSt".toList 74) := rfl
  rw [h, mdChain74]
  decide

theorem mdChain76 :
    computeDigest "md5".toList pwTest "TeSt".toList 76 = [0x0d, 0x86, 0x14, 0xd2, 0xd0, 0xd8, 0x6d, 0xac] := by
  have h : computeDigest "md5".toList pwTest "TeSt".toList 76 =
      foldedHash "md5".toList
        (computeDigest "md5".toList pwTest "TeSt".toList 75) := rfl
  rw [h, mdChain75]
  decide

theorem mdChain77 :
    computeDigest "md5".toList pwTest "TeSt".toList 77 = [0xdb, 0x0c, 0x88, 0x53, 0x56, 0xc1, 0x59, 0x23] := by
  have h : computeDigest "md5".toList pwTest "TeSt".toList 77 =
      foldedHash "md5".toList
        (computeDigest "md5".toList pwTest "TeSt".toList 76) := rfl
  rw [h, mdChain76]
  decide

theorem mdChain78 :
    computeDigest "md5".toList pwTest "TeSt".toList 78 = [0x37, 0x7f, 0xfd, 0x99, 0xe9, 0x85, 0x8b, 0x9c] := by
  have h : computeDigest "md5".toList pwTest "TeSt".toList 78 =
      foldedHash "md5".toList
        (computeDigest "md5".toList pwTest "TeSt".toList 77) := rfl
  rw [h, mdChain77]
  decide

theorem mdChain79 :
    computeDigest "md5".toList pwTest "TeSt".toList 79 = [0xb9, 0x24, 0xa2, 0x93, 0xe6, 0xc4, 0xde, 0xa1] := by
  have h : computeDigest "md5".toList pwTest "TeSt".toList 79 =
      foldedHash "md5".toList
        (computeDigest "md5".toList pwTest "TeSt".toList 78) := rfl
  rw [h, mdChain78]
  decide

theorem mdChain80 :
    computeDigest "md5".toList pwTest "TeSt".toList 80 = [0xa4, 0x0b, 0x10, 0xd8, 0x74, 0xd3, 0xd4, 0x7a] := by
  have h : computeDigest "md5".toList pwTest "TeSt".toList 80 =
      foldedHash "md5".toList
        (computeDigest "md5".toList pwTest "TeSt".toList 79) := rfl
  rw [h, mdChain79]
  decide

theorem mdChain81 :
    computeDigest "md5".toList pwTest "TeSt".toList 81 = [0xea, 0x4b, 0xe2, 0x1f, 0xf0, 0x68, 0x40, 0x07] := by
  have h : computeDigest "md5".toList pwTest "TeSt".toList 81 =
      foldedHash "md5".toList
        (computeDigest "md5".toList pwTest "TeSt".toList 80) := rfl
  rw [h, mdChain80]
  decide

theorem mdChain82 :
    computeDigest "md5".toList pwTest "TeSt".toList 82 = [0xec, 0x43, 0x81, 0xa5, 0x6b, 0x4d, 0x32, 0x51] := by
  have h : computeDigest "md5".toList pwTest "TeSt".toList 82 =
      foldedHash "md5".toList
        (computeDigest "md5".toList pwTest "TeSt".toList 81) := rfl
  rw [h, mdChain81]
  decide

theorem mdChain83 :
    computeDigest "md5".toList pwTest "TeSt".toList 83 = [0xf7, 0xc7, 0x86, 0xc0, 0x76, 0x74, 0x99, 0xad] := by
  have h : computeDigest "md5".toList pwTest "TeSt".toList 83 =
      foldedHash "md5".toList
        (computeDigest "md5".toList pwTest "TeSt".toList 82) := rfl
  rw [h, mdChain82]
  decide

theorem mdChain84 :
    computeDigest "md5".toList pwTest "TeSt".toList 84 = [0xfb, 0xde, 0x3a, 0xd9, 0xb0, 0x7a, 0x75, 0xf5] := by
  have h : computeDigest "md5".toList pwTest "TeSt".toList 84 =
      foldedHash "md5".toList
        (computeDigest "md5".toList pwTest "TeSt".toList 83) := rfl
  rw [h, mdChain83]
  decide

theorem mdChain85 :
    computeDigest "md5".toList pwTest "TeSt".toList 85 = [0xe3, 0x0c, 0x77, 0x0c, 0x74, 0x08, 0x7e, 0x61] := by
  have h : computeDigest "md5".toList pwTest "TeSt".toList 85 =
      foldedHash "md5".toList
        (computeDigest "md5".toList pwTest "TeSt".toList 84) := rfl
  rw [h, mdChain84]
  decide

theorem mdChain86 :
    computeDigest "md5".toList pwTest "TeSt".toList 86 = [0x3a, 0x3b, 0xa1, 0xd4, 0x0a, 0xbe, 0x9a, 0x83] := by
  have h : computeDigest "md5".toList pwTest "TeSt".toList 86 =
      foldedHash "md5".toList
        (computeDigest "md5".toList pwTest "TeSt".toList 85) := rfl
  rw [h, mdChain85]
  decide

theorem mdChain87 :
    computeDigest "md5".toList pwTest "TeSt".toList 87 = [0xc1, 0x49, 0xd5, 0xb4, 0x3f, 0x71, 0x31, 0xb6] := by
  have h : computeDigest "md5".toList pwTest "TeSt".toList 87 =
      foldedHash "md5".toList
        (computeDigest "md5".toList pwTest "TeSt".toList 86) := rfl
  rw [h, mdChain86]
  decide

theorem mdChain88 :
    computeDigest "md5".toList pwTest "TeSt".toList 88 = [0x02, 0xce, 0x5f, 0xb9, 0x2b, 0x28, 0xb4, 0xdd] := by
  have h : computeDigest "md5".toList pwTest "TeSt".toList 88 =
      foldedHash "md5".toList
        (computeDigest "md5".toList pwTest "TeSt".toList 87) := rfl
  rw [h, mdChain87]
  decide

theorem mdChain89 :
    computeDigest "md5".toList pwTest "TeSt".toList 89 = [0xde, 0x34, 0xd7, 0xfb, 0x61, 0x5c, 0xcd, 0x8c] := by
  have h : computeDigest "md5".toList pwTest "TeSt".toList 89 =
      foldedHash "md5".toList
        (computeDigest "md5".toList pwTest "TeSt".toList 88) := rfl
  rw [h, mdChain88]
  decide

theorem mdChain90 :
    computeDigest "md5".toList pwTest "TeSt".toList 90 = [0x36, 0x62, 0xec, 0xb0, 0x0f, 0xb7, 0xfa, 0xb5] := by
  have h : computeDigest "md5".toList pwTest "TeSt".toList 90 =
      foldedHash "md5".toList
        (computeDigest "md5".toList pwTest "TeSt".toList 89) := rfl
  rw [h, mdChain89]
  decide

theorem mdChain91 :
    computeDigest "md5".toList pwTest "TeSt".toList 91 = [0xe2, 0xee, 0x10, 0x46, 0x11, 0xcd, 0xa5, 0x69] := by
  have h : computeDigest "md5".toList pwTest "TeSt".toList 91 =
      foldedHash "md5".toList
        (computeDigest "md5".toList pwTest "TeSt".toList 90) := rfl
  rw [h, mdChain90]
  decide

theorem mdChain92 :
    computeDigest "md5".toList pwTest "TeSt".toList 92 = [0x6e, 0x28, 0x39, 0x1c, 0xd6, 0x91, 0x4c, 0xb0] := by
  have h : computeDigest "md5".toList pwTest "TeSt".toList 92 =
      foldedHash "md5".toList
        (computeDigest "md5".toList pwTest "TeSt".toList 91) := rfl
  rw [h, mdChain91]
  decide

theorem mdChain93 :
    computeDigest "md5".toList pwTest "TeSt".toList 93 = [0x79, 0x0e, 0xfc, 0xbf, 0xcc, 0x88, 0x54, 0xbe] := by
  have h : computeDigest "md5".toList pwTest "TeSt".toList 93 =
      foldedHash "md5".toList
        (computeDigest "md5".toList pwTest "TeSt".toList 92) := rfl
  rw [h, mdChain92]
  decide

theorem mdChain94 :
    computeDigest "md5".toList pwTest "TeSt".toList 94 = [0x45, 0xdc, 0xfe, 0xeb, 0xa1, 0x86, 0x8f, 0xbc] := by
  have h : computeDigest "md5".toList pwTest "TeSt".toList 94 =
      foldedHash "md5".toList
        (computeDigest "md5".toList pwTest "TeSt".toList 93) := rfl
  rw [h, mdChain93]
  decide

theorem mdChain95 :
    computeDigest "md5".toList pwTest "TeSt".toList 95 = [0x41, 0xaa, 0x63, 0x17, 0x20, 0xb1, 0xe4, 0xbf] := by
  have h : computeDigest "md5".toList pwTest "TeSt".toList 95 =
      foldedHash "md5".toList
        (computeDigest "md5".toList pwTest "TeSt".toList 94) := rfl
  rw [h, mdChain94]
  decide

theorem mdChain96 :
    computeDigest "md5".toList pwTest "TeSt".toList 96 = [0xa9, 0x4c, 0x53, 0x32, 0xa6, 0x30, 0x98, 0xc4] := by
  have h : computeDigest "md5".toList pwTest "TeSt".toList 96 =
      foldedHash "md5".toList
        (computeDigest "md5".toList pwTest "TeSt".toList 95) := rfl
  rw [h, mdChain95]
  decide

theorem mdChain97 :
    computeDigest "md5".toList pwTest "TeSt".toList 97 = [0x3e, 0x6a, 0x51, 0xd0, 0xfd, 0xbe, 0xdc, 0x57] := by
  have h : computeDigest "md5".toList pwTest "TeSt".toList 97 =
      foldedHash "md5".toList
        (computeDigest "md5".toList pwTest "TeSt".toList 96) := rfl
  rw [h, mdChain96]
  decide

theorem mdChain98 :
    computeDigest "md5".toList pwTest "TeSt".toList 98 = [0x44, 0xb0, 0xba, 0xff, 0x93, 0xe2, 0x54, 0x04] := by
  have h : computeDigest "md5".toList pwTest "TeSt".toList 98 =
      foldedHash "md5".toList
        (computeDigest "md5".toList pwTest "TeSt".toList 97) := rfl
  rw [h, mdChain97]
  decide

theorem mdChain99 :
    computeDigest "md5".toList pwTest "TeSt".toList 99 = [0x50, 0xfe, 0x19, 0x62, 0xc4, 0x96, 0x58, 0x80] := by
  have h : computeDigest "md5".toList pwTest "TeSt".toList 99 =
      foldedHash "md5".toList
        (computeDigest "md5".toList pwTest "TeSt".toList 98) := rfl
  rw [h, mdChain98]
  decide

/-- C7: the generator reproduces the RFC 2289 Appendix C vectors for
password `This is a test.` and seed `TeSt`: MD5 step 0 is hex
`9e876134d90499dd` with words `INCH SEA ANNE LONG AHEM TOUR`, MD5 step 1
is `7965e05436f5029f`, MD5 step 99 is `50fe1962c4965880`, and SHA1
step 0 is `bb9e6ae1979d8ff4`. -/
theorem c7_rfc_vectors :
    (computeDigest "md5".toList pwTest "TeSt".toList 0 =
        [0x9e, 0x87, 0x61, 0x34, 0xd9, 0x04, 0x99, 0xdd] ∧
      hexlify (computeDigest "md5".toList pwTest "TeSt".toList 0) =
        "9e876134d90499dd".toList ∧
      bytesToTokens (computeDigest "md5".toList pwTest "TeSt".toList 0) =
        "INCH SEA ANNE LONG AHEM TOUR".toList) ∧
    hexlify (computeDigest "md5".toList pwTest "TeSt".toList 1) =
      "7965e05436f5029f".toList ∧
    hexlify (computeDigest "md5".toList pwTest "TeSt".toList 99) =
      "50fe1962c4965880".toList ∧
    hexlify (computeDigest "sha1".toList pwTest "TeSt".toList 0) =
      "bb9e6ae1979d8ff4".toList := by
  refine ⟨⟨mdChain0, ?_, ?_⟩, ?_, ?_, ?_⟩
  · rw [mdChain0]
    decide
  · rw [mdChain0]
    decide
  · rw [mdChain1]
    decide
  · rw [mdChain99]
    decide
  · decide

end Otp2289
